import Mathlib

/-!
# Healthcare NER dashboard (`src/App.js`)

A shallow embedding of the component `HealthcareNERDashboard`: its six state
cells, the metrics loader that runs on mount, the loading gate of the render
function, the data derived from the loaded metrics, the percentages it shows,
the tab bar with its six guarded panels, and the `predictEntities` handler
together with the button that triggers it.

Numbers are doubles, kept as exact rationals: a product is rounded to the
nearest double and `toFixed` rounds that double to decimals.  A render that
throws (a member access on `null` or `undefined`, a product whose operand has
no primitive value, an object handed to React as a child) is recorded as such.
The chart library is outside the repository and is a parameter of the render.

JavaScript values that reach the component come out of `response.json()`, so
they are JSON values; `undefined` is modelled by `none`.  A handler is modelled
by the ordered list of observable effects it performs (state setter calls,
`fetch`, `console.error`, `alert`); the state after the handler is obtained by
replaying the setter calls.
-/

namespace NERDashboard

/-! ## JavaScript values -/

/-- Numbers produced by `JSON.parse`: a finite double (kept as its exact
rational value, so `0` and `-0` coincide) or an infinity obtained from an
overflowing literal.  `NaN` cannot be produced by `JSON.parse`. -/
inductive JSNumber where
  | finite (q : ℚ)
  | infinite (negative : Bool)

/-- Values produced by `JSON.parse`.  The field list of `obj` holds the own
properties of the parsed object, each key once. -/
inductive JSON where
  | null
  | bool (b : Bool)
  | num (n : JSNumber)
  | str (s : String)
  | arr (xs : List JSON)
  | obj (fields : List (String × JSON))

/-- A JavaScript value as seen by the component: `none` is `undefined`. -/
abbrev JSValue := Option JSON

/-- Exceptions and promise rejections.  `invalidChild` is the error React
raises when a plain object is handed to it as a child. -/
inductive JSError where
  | typeError
  | parseError
  | networkError
  | error (message : String)
  | invalidChild
  deriving DecidableEq

/-- JavaScript `ToBoolean` on numbers: only zero is falsy. -/
def JSNumber.truthy : JSNumber → Bool
  | .finite q => decide (q ≠ 0)
  | .infinite _ => true

/-- JavaScript `ToBoolean`. -/
def truthy : JSValue → Bool
  | none => false
  | some .null => false
  | some (.bool b) => b
  | some (.num n) => n.truthy
  | some (.str s) => decide (s.data ≠ [])
  | some (.arr _) => true
  | some (.obj _) => true

/-- The property read `v.data`.  Reading a property of `null` or `undefined`
throws; primitives, strings and arrays have no property `data`; an object
yields its own property of that name. -/
def readData : JSValue → Except JSError JSValue
  | none => .error .typeError
  | some .null => .error .typeError
  | some (.obj fields) => .ok (fields.lookup "data")
  | some _ => .ok none

/-- The property read `v[0]`.  On an array it is the first element, on an
object the own property named `0`, on a string the one-unit string at index 0
(kept here as the first character; the handler only tests it for truthiness
and for a `map` method, and every non-empty string answers both alike). -/
def readIndex0 : JSValue → Except JSError JSValue
  | none => .error .typeError
  | some .null => .error .typeError
  | some (.str s) => .ok ((s.data.head?).map (fun c => JSON.str (String.singleton c)))
  | some (.arr xs) => .ok xs.head?
  | some (.obj fields) => .ok (fields.lookup "0")
  | some _ => .ok none

/-- Is the value `null` or `undefined`?  A member access throws on exactly
these. -/
def nullish : JSValue → Bool
  | none => true
  | some .null => true
  | some _ => false

/-- The property read `v.key` for a key that no built-in prototype defines
(`overall`, `chemical`, `f1_score`, ...): it throws on `null` and `undefined`,
yields the own property of an object, and `undefined` on anything else. -/
def readProp (key : String) : JSValue → Except JSError JSValue
  | none => .error .typeError
  | some .null => .error .typeError
  | some (.obj fields) => .ok (fields.lookup key)
  | some _ => .ok none

/-- The length of a string in UTF-16 code units. -/
def utf16Length (s : String) : Nat :=
  s.data.foldl (fun n c => n + (if c.toNat < 0x10000 then 1 else 2)) 0

/-- The property read `v.length`: defined on arrays and strings, an own
property on objects. -/
def readLength : JSValue → Except JSError JSValue
  | none => .error .typeError
  | some .null => .error .typeError
  | some (.arr xs) => .ok (some (.num (.finite xs.length)))
  | some (.str s) => .ok (some (.num (.finite (utf16Length s))))
  | some (.obj fields) => .ok (fields.lookup "length")
  | some _ => .ok none

/-! ## Numbers: the operator `*` and the method `toFixed` -/

/-- Rounding to the nearest integer, a tie going to the even one. -/
def roundHalfEven (m : ℚ) : ℤ :=
  if m - ⌊m⌋ < 1 / 2 then ⌊m⌋
  else if 1 / 2 < m - ⌊m⌋ then ⌊m⌋ + 1
  else if ⌊m⌋ % 2 = 0 then ⌊m⌋ else ⌊m⌋ + 1

/-- The binary exponent of a positive magnitude `a`, that is the `e` with
`2 ^ e ≤ a < 2 ^ (e + 1)`, never below that of the subnormal doubles. -/
def binade (a : ℚ) : ℤ :=
  max (Int.log 2 a) (-1022)

/-- IEEE-754 binary64 rounding of an exact value: to the nearest multiple of
`2 ^ (binade - 52)`, ties to even, overflowing to an infinity. -/
def roundToDouble (y : ℚ) : JSNumber :=
  if y = 0 then .finite 0
  else if (2 : ℚ) ^ (1024 : ℕ)
      ≤ (roundHalfEven (|y| / 2 ^ (binade |y| - 52)) : ℚ) * 2 ^ (binade |y| - 52) then
    .infinite (decide (y < 0))
  else if y < 0 then
    .finite (-((roundHalfEven (|y| / 2 ^ (binade |y| - 52)) : ℚ) * 2 ^ (binade |y| - 52)))
  else .finite ((roundHalfEven (|y| / 2 ^ (binade |y| - 52)) : ℚ) * 2 ^ (binade |y| - 52))

mutual
/-- Does converting the value to a primitive throw?  A parsed object whose own
property `toString` shadows the inherited method has no callable conversion
left (the inherited `valueOf` returns the object itself); an array is joined,
which converts each element other than `null`. -/
def stringifyThrows : JSON → Bool
  | .obj fields => (fields.lookup "toString").isSome
  | .arr xs => anyStringifyThrows xs
  | _ => false
/-- Does converting some element of the list throw? -/
def anyStringifyThrows : List JSON → Bool
  | [] => false
  | x :: xs => stringifyThrows x || anyStringifyThrows xs
end

/-- The value of `v * 100`: a number, `NaN`, or, for a string or array operand
(whose numeric value depends on parsing its text), the operand itself with
the conversion left unevaluated. -/
inductive Product where
  | number (n : JSNumber)
  | nan
  | coerced (v : JSON)

/-- The expression `v * 100`: `ToNumber(v)` times the double `100`.  It throws
exactly when the conversion of `v` to a primitive throws. -/
def timesHundred : JSValue → Except JSError Product
  | none => .ok .nan
  | some .null => .ok (.number (.finite 0))
  | some (.bool b) => .ok (.number (.finite (if b then 100 else 0)))
  | some (.num (.finite q)) => .ok (.number (roundToDouble (q * 100)))
  | some (.num (.infinite negative)) => .ok (.number (.infinite negative))
  | some (.str s) => .ok (.coerced (.str s))
  | some (.arr xs) =>
    if anyStringifyThrows xs then .error .typeError else .ok (.coerced (.arr xs))
  | some (.obj fields) =>
    if (fields.lookup "toString").isSome then .error .typeError else .ok .nan

/-- Step 11a of `toFixed` for `x ≥ 0`: the integer `n` with `n / 10 ^ digits`
nearest to `x`, the larger one of two. -/
def fixedUnits (x : ℚ) (digits : ℕ) : ℕ :=
  ⌊x * 10 ^ digits + 1 / 2⌋₊

/-- Steps 11b-c of `toFixed`: the decimal digits of `n`, padded with zeros to
`digits + 1` places, with a point before the last `digits` of them. -/
def formatFixed (n digits : ℕ) : String :=
  if digits = 0 then String.mk (Nat.toDigits 10 n)
  else
    String.mk
      ((List.replicate (digits + 1 - (Nat.toDigits 10 n).length) '0' ++ Nat.toDigits 10 n).take
          ((List.replicate (digits + 1 - (Nat.toDigits 10 n).length) '0'
            ++ Nat.toDigits 10 n).length - digits)
        ++ '.' ::
          (List.replicate (digits + 1 - (Nat.toDigits 10 n).length) '0' ++ Nat.toDigits 10 n).drop
            ((List.replicate (digits + 1 - (Nat.toDigits 10 n).length) '0'
              ++ Nat.toDigits 10 n).length - digits))

/-- The method `toFixed(digits)` on a finite number below `10 ^ 21` in
magnitude; above that the method falls back on the general number-to-string
conversion, whose text is not modelled (`none`). -/
def toFixedFinite (x : ℚ) (digits : ℕ) : Option String :=
  if (10 : ℚ) ^ (21 : ℕ) ≤ |x| then none
  else if x < 0 then some ("-" ++ formatFixed (fixedUnits (-x) digits) digits)
  else some (formatFixed (fixedUnits x digits) digits)

/-- The method `toFixed(digits)` on the value of a product; `none` where the
text is not modelled. -/
def Product.toFixed : Product → ℕ → Option String
  | .number (.finite x), digits => toFixedFinite x digits
  | .number (.infinite false), _ => some "Infinity"
  | .number (.infinite true), _ => some "-Infinity"
  | .nan, _ => some "NaN"
  | .coerced _, _ => none

/-- The expression `(v * 100).toFixed(digits)`. -/
def percentText (digits : ℕ) (v : JSValue) : Except JSError (Option String) :=
  match timesHundred v with
  | .error e => .error e
  | .ok p => .ok (p.toFixed digits)

/-- The expression `(record.field * 100).toFixed(digits)`. -/
def fieldPercent (record : JSValue) (field : String) (digits : ℕ) :
    Except JSError (Option String) :=
  match readProp field record with
  | .error e => .error e
  | .ok v => percentText digits v

/-! ## State -/

/-- An element of `predictedEntities`: the object `{ text, type }` built by the
mapping callback of `predictEntities`. -/
structure PredictedEntity where
  text : JSValue
  type : JSValue

/-- The six `useState` cells of the component. -/
structure State where
  activeTab : String
  inputText : String
  predictedEntities : List PredictedEntity
  isProcessing : Bool
  metricsData : JSON
  loading : Bool

/-- The initial values passed to `useState`. -/
def initialState : State :=
  { activeTab := "overview"
    inputText := ""
    predictedEntities := []
    isProcessing := false
    metricsData := .null
    loading := true }

/-- The argument of a `fetch` call.  `body` is the value handed to
`JSON.stringify`; `none` when no body is given. -/
structure Request where
  url : String
  method : String
  headers : List (String × String)
  body : Option JSON

/-- What the component reads from a `fetch` response: the `ok` flag and the
outcome of `response.json()`. -/
structure Response where
  ok : Bool
  json : Except JSError JSON

/-- The observable actions of the handlers. -/
inductive Effect where
  | setActiveTab (tab : String)
  | setInputText (value : String)
  | setPredictedEntities (entities : List PredictedEntity)
  | setIsProcessing (b : Bool)
  | setMetricsData (data : JSON)
  | setLoading (b : Bool)
  | fetch (req : Request)
  | consoleError (label : String) (err : JSError)
  | alert (message : String)

/-- Replays one effect on the state: setters write their cell, everything else
leaves the state alone. -/
def applyEffect (s : State) : Effect → State
  | .setActiveTab tab => { s with activeTab := tab }
  | .setInputText value => { s with inputText := value }
  | .setPredictedEntities entities => { s with predictedEntities := entities }
  | .setIsProcessing b => { s with isProcessing := b }
  | .setMetricsData data => { s with metricsData := data }
  | .setLoading b => { s with loading := b }
  | .fetch _ => s
  | .consoleError _ _ => s
  | .alert _ => s

/-- Replays a list of effects in order. -/
def applyEffects (s : State) (effects : List Effect) : State :=
  effects.foldl applyEffect s

/-- Is the effect a network request? -/
def Effect.isFetch : Effect → Bool
  | .fetch _ => true
  | _ => false

/-- Is the effect a call of `alert`? -/
def Effect.isAlert : Effect → Bool
  | .alert _ => true
  | _ => false

/-! ## `String.prototype.trim` -/

/-- The code points removed by `trim`: ECMAScript WhiteSpace and
LineTerminator. -/
def isJSWhiteSpace (c : Char) : Bool :=
  let n := c.toNat
  n == 0x09 || n == 0x0A || n == 0x0B || n == 0x0C || n == 0x0D || n == 0x20
    || n == 0xA0 || n == 0x1680 || (0x2000 ≤ n && n ≤ 0x200A) || n == 0x2028
    || n == 0x2029 || n == 0x202F || n == 0x205F || n == 0x3000 || n == 0xFEFF

/-- The method `trim`: strips white space from both ends. -/
def trim (s : String) : String :=
  ⟨((s.data.dropWhile isJSWhiteSpace).reverse.dropWhile isJSWhiteSpace).reverse⟩

/-! ## Metrics loader (`useEffect`, lines 16-27) -/

/-- The request of the metrics loader. -/
def metricsRequest (apiUrl : String) : Request :=
  { url := apiUrl ++ "/metrics", method := "GET", headers := [], body := none }

/-- The promise chain of the loader: `fetch(..).then(r => r.json())
.then(data => ..).catch(error => ..)`.  The `ok` flag is never read. -/
def loadMetrics (apiUrl : String) (net : Request → Except JSError Response) :
    List Effect :=
  let req := metricsRequest apiUrl
  Effect.fetch req ::
    (match net req with
     | .error e => [.consoleError "Failed to load metrics:" e, .setLoading false]
     | .ok response =>
       match response.json with
       | .error e => [.consoleError "Failed to load metrics:" e, .setLoading false]
       | .ok data => [.setMetricsData data, .setLoading false])

/-! ## Render (lines 29-67, 156-511) -/

/-- The identifiers of the tab bar, in source order. -/
def tabs : List String :=
  ["overview", "analysis", "training", "comparison", "details", "predict"]

/-- A number handed to a chart as it stands: a literal of the source or a
value read from `metricsData`. -/
inductive NumExpr where
  | literal (decimal : String)
  | loaded (v : JSValue)

/-- The locals computed from `metricsData` at lines 40-67. -/
structure Derived where
  overallMetrics : JSValue
  chemical : JSValue
  disease : JSValue
  entityDistribution : JSValue
  trainingProgress : JSValue
  comparisonData : List (String × NumExpr)
  chartMetricsData : List (String × NumExpr × NumExpr)
  radarData : List (String × Product × Nat)

/-- Lines 40-67, run in the state `s` the render closes over.  A member access
on a value that is `null` or `undefined` throws, and so does a product whose
operand cannot be converted to a primitive. -/
def deriveMetrics (s : State) : Except JSError Derived := do
  let overallMetrics ← readProp "overall" (some s.metricsData)
  let chemical ← readProp "chemical" (some s.metricsData)
  let disease ← readProp "disease" (some s.metricsData)
  let entityDistribution ← readProp "entity_distribution" (some s.metricsData)
  let trainingProgress ← readProp "training_progress" (some s.metricsData)
  let overallF1 ← readProp "f1_score" overallMetrics
  let chemicalPrecision ← readProp "precision" chemical
  let diseasePrecision ← readProp "precision" disease
  let chemicalRecall ← readProp "recall" chemical
  let diseaseRecall ← readProp "recall" disease
  let chemicalF1 ← readProp "f1_score" chemical
  let diseaseF1 ← readProp "f1_score" disease
  let overallPrecision ← readProp "precision" overallMetrics
  let radarPrecision ← timesHundred overallPrecision
  let overallRecall ← readProp "recall" overallMetrics
  let radarRecall ← timesHundred overallRecall
  let radarF1 ← timesHundred overallF1
  let radarChemical ← timesHundred chemicalF1
  let radarDisease ← timesHundred diseaseF1
  pure
    { overallMetrics := overallMetrics
      chemical := chemical
      disease := disease
      entityDistribution := entityDistribution
      trainingProgress := trainingProgress
      comparisonData :=
        [("Rule-Based", .literal "0.45"), ("BiLSTM-CRF", .literal "0.76"),
         ("BioBERT (Ours)", .loaded overallF1), ("SOTA", .literal "0.90")]
      chartMetricsData :=
        [("Precision", .loaded chemicalPrecision, .loaded diseasePrecision),
         ("Recall", .loaded chemicalRecall, .loaded diseaseRecall),
         ("F1-Score", .loaded chemicalF1, .loaded diseaseF1)]
      radarData :=
        [("Precision", radarPrecision, 100),
         ("Recall", radarRecall, 100),
         ("F1-Score", radarF1, 100),
         ("Chemical F1", radarChemical, 100),
         ("Disease F1", radarDisease, 100)] }

mutual
/-- Does React accept the value as a child?  Text, numbers, booleans and
`null` are accepted, an array when each of its elements is, a plain object
never. -/
def validChild : JSON → Bool
  | .obj _ => false
  | .arr xs => allValidChildren xs
  | _ => true
/-- Does React accept every element of the list as a child? -/
def allValidChildren : List JSON → Bool
  | [] => true
  | x :: xs => validChild x && allValidChildren xs
end

/-- An expression `{v}` among the children of an element: React throws when
`v` holds a plain object; `undefined` renders nothing. -/
def reactChild : JSValue → Except JSError Unit
  | none => .ok ()
  | some v => if validChild v then .ok () else .error .invalidChild

/-- The chart library, which is not part of the repository: whether the chart
components of the panel `tab` render the data derived for them, or throw. -/
abbrev Charts := String → Derived → Except JSError Unit

/-- The overview panel (lines 215-266): the three cards, the two reads of
`entityDistribution` for the pie, then the charts. -/
def overviewPanel (charts : Charts) (d : Derived) : Except JSError Unit := do
  let _ ← fieldPercent d.overallMetrics "precision" 2
  let _ ← fieldPercent d.overallMetrics "recall" 2
  let _ ← fieldPercent d.overallMetrics "f1_score" 2
  let _ ← readProp "chemical" d.entityDistribution
  let _ ← readProp "disease" d.entityDistribution
  charts "overview" d

/-- The analysis panel (lines 268-326): the two bars of Entity Performance,
then the charts. -/
def analysisPanel (charts : Charts) (d : Derived) : Except JSError Unit := do
  let _ ← fieldPercent d.chemical "f1_score" 1
  let _ ← fieldPercent d.disease "f1_score" 1
  charts "analysis" d

/-- The training panel (lines 328-343): `trainingProgress.length` shown in the
heading, then the line chart. -/
def trainingPanel (charts : Charts) (d : Derived) : Except JSError Unit := do
  let length ← readLength d.trainingProgress
  reactChild length
  charts "training" d

/-- The details panel (lines 364-410): six percentages, then the two `support`
values shown as children. -/
def detailsPanel (d : Derived) : Except JSError Unit := do
  let _ ← fieldPercent d.chemical "precision" 2
  let _ ← fieldPercent d.chemical "recall" 2
  let _ ← fieldPercent d.chemical "f1_score" 2
  let chemicalSupport ← readProp "support" d.chemical
  let _ ← fieldPercent d.disease "precision" 2
  let _ ← fieldPercent d.disease "recall" 2
  let _ ← fieldPercent d.disease "f1_score" 2
  let diseaseSupport ← readProp "support" d.disease
  reactChild chemicalSupport
  reactChild diseaseSupport

/-- The entity list of the predict panel (lines 461-490): for each entity its
`type`, then its `text`, shown as children. -/
def entityChildren : List PredictedEntity → Except JSError Unit
  | [] => .ok ()
  | entity :: rest =>
    match reactChild entity.type with
    | .error e => .error e
    | .ok _ =>
      match reactChild entity.text with
      | .error e => .error e
      | .ok _ => entityChildren rest

/-- The panel guarded by `activeTab === tab`. -/
def panelBody (charts : Charts) (s : State) (d : Derived) (tab : String) :
    Except JSError Unit :=
  if tab == "overview" then overviewPanel charts d
  else if tab == "analysis" then analysisPanel charts d
  else if tab == "training" then trainingPanel charts d
  else if tab == "comparison" then charts "comparison" d
  else if tab == "details" then detailsPanel d
  else if tab == "predict" then entityChildren s.predictedEntities
  else .ok ()

/-- The panels whose guard holds, built in source order. -/
def renderPanels (charts : Charts) (s : State) (d : Derived) :
    List String → Except JSError Unit
  | [] => .ok ()
  | tab :: rest =>
    match panelBody charts s d tab with
    | .error e => .error e
    | .ok _ => renderPanels charts s d rest

/-- What the component returns: the loading placeholder, or the dashboard, of
which the tab bar (identifier and whether it is highlighted) and the panels
whose guard `activeTab === id` holds are recorded; `crashed` stands for a
render that throws. -/
inductive View where
  | loadingPlaceholder
  | dashboard (tabBar : List (String × Bool)) (panels : List String)
  | crashed (err : JSError)
  deriving DecidableEq

/-- The render function: the loading gate `if (loading || !metricsData)`, the
derived metrics, the header badge, the tab bar and the six guarded panels.
The icon components take constant props only and are taken to render. -/
def render (charts : Charts) (s : State) : View :=
  if s.loading || !truthy (some s.metricsData) then .loadingPlaceholder
  else
    match deriveMetrics s with
    | .error e => .crashed e
    | .ok d =>
      match fieldPercent d.overallMetrics "f1_score" 2 with
      | .error e => .crashed e
      | .ok _ =>
        match renderPanels charts s d (tabs.filter (fun tab => s.activeTab == tab)) with
        | .error e => .crashed e
        | .ok _ =>
          .dashboard (tabs.map (fun tab => (tab, s.activeTab == tab)))
            (tabs.filter (fun tab => s.activeTab == tab))

/-- A place where the dashboard shows a percentage: the record and field of
`metricsData` it reads and the argument of `toFixed`. -/
structure PercentSite where
  record : String
  field : String
  digits : ℕ
  deriving DecidableEq

/-- The percentages of the dashboard: the header badge (line 191), the
overview cards (218-220), the Entity Performance bars (307, 316) and the
details figures (371-379, 393-401).  The pie label and the chart tooltips
format values that the chart library computes and are not listed. -/
def percentSites : List PercentSite :=
  [⟨"overall", "f1_score", 2⟩,
   ⟨"overall", "precision", 2⟩, ⟨"overall", "recall", 2⟩, ⟨"overall", "f1_score", 2⟩,
   ⟨"chemical", "f1_score", 1⟩, ⟨"disease", "f1_score", 1⟩,
   ⟨"chemical", "precision", 2⟩, ⟨"chemical", "recall", 2⟩, ⟨"chemical", "f1_score", 2⟩,
   ⟨"disease", "precision", 2⟩, ⟨"disease", "recall", 2⟩, ⟨"disease", "f1_score", 2⟩]

/-- The text shown at a site for the loaded metrics `m`. -/
def siteText (m : JSON) (site : PercentSite) : Except JSError (Option String) :=
  match readProp site.record (some m) with
  | .error e => .error e
  | .ok record => fieldPercent record site.field site.digits

/-! ## Prediction client (lines 96-134, 443-446) -/

/-- The `fetch` argument built by `predictEntities`. -/
def predictRequest (apiUrl : String) (inputText : String) : Request :=
  { url := apiUrl ++ "/api/predict"
    method := "POST"
    headers := [("Content-Type", "application/json")]
    body := some (.obj [("data", .arr [.str inputText])]) }

/-- The callback `([text, type]) => ({ text, type })`.  Array destructuring
iterates its argument: an array yields its elements, a string its code
points, and anything else is not iterable. -/
def destructurePair : JSON → Except JSError PredictedEntity
  | .arr ys => .ok { text := ys.head?, type := ys.tail.head? }
  | .str s =>
    .ok { text := (s.data.head?).map (fun c => JSON.str (String.singleton c))
          type := (s.data.tail.head?).map (fun c => JSON.str (String.singleton c)) }
  | _ => .error .typeError

/-- The loop of `Array.prototype.map` with a callback that may throw: the
elements are visited in order and the first exception ends the call. -/
def mapArray {β : Type} (f : JSON → Except JSError β) : List JSON → Except JSError (List β)
  | [] => .ok []
  | x :: xs =>
    match f x with
    | .error e => .error e
    | .ok y =>
      match mapArray f xs with
      | .error e => .error e
      | .ok ys => .ok (y :: ys)

/-- The call `v.map(callback)`: only an array has a callable `map`. -/
def mapEntities : JSValue → Except JSError (List PredictedEntity)
  | some (.arr xs) => mapArray destructurePair xs
  | _ => .error .typeError

/-- The condition `result.data && result.data[0]`: the right operand is
evaluated only when the left one is truthy. -/
def hasEntities (result : JSON) : Except JSError Bool :=
  match readData (some result) with
  | .error e => .error e
  | .ok data =>
    if truthy data then
      match readIndex0 data with
      | .error e => .error e
      | .ok first => .ok (truthy first)
    else .ok false

/-- The body of the `try` block after `fetch` has settled: the value it passes
to `setPredictedEntities`, or the exception it throws. -/
def tryBlock (fetched : Except JSError Response) :
    Except JSError (List PredictedEntity) :=
  match fetched with
  | .error e => .error e
  | .ok response =>
    if !response.ok then .error (.error "API request failed")
    else
      match response.json with
      | .error e => .error e
      | .ok result =>
        match hasEntities result with
        | .error e => .error e
        | .ok true =>
          match readData (some result) with
          | .error e => .error e
          | .ok data =>
            match readIndex0 data with
            | .error e => .error e
            | .ok first => mapEntities first
        | .ok false => .ok []

/-- The handler `predictEntities`, run in the state `s` it closes over. -/
def predictEntities (apiUrl : String) (net : Request → Except JSError Response)
    (s : State) : List Effect :=
  if !truthy (some (.str (trim s.inputText))) then []
  else
    let req := predictRequest apiUrl s.inputText
    [Effect.setIsProcessing true, Effect.fetch req]
      ++ (match tryBlock (net req) with
          | .ok entities => [Effect.setPredictedEntities entities]
          | .error e =>
            [Effect.consoleError "Prediction error:" e,
             Effect.alert "API connection failed. Please check your backend connection.",
             Effect.setPredictedEntities []])
      ++ [Effect.setIsProcessing false]

/-- The attribute `disabled={!inputText.trim() || isProcessing}` of the
predict button. -/
def predictDisabled (s : State) : Bool :=
  !truthy (some (.str (trim s.inputText))) || s.isProcessing

/-- A press of the predict button: a disabled button dispatches no click, an
enabled one runs `predictEntities`. -/
def pressPredict (apiUrl : String) (net : Request → Except JSError Response)
    (s : State) : List Effect :=
  if predictDisabled s then [] else predictEntities apiUrl net s

/-! ## Events -/

/-- What can happen after mount: a tab is selected, the text area is edited
(or an example is chosen), or the predict button is pressed and the network
answers as given. -/
inductive Event where
  | selectTab (tab : String)
  | editInput (value : String)
  | predict (net : Request → Except JSError Response)

/-- The effects of one event. -/
def handle (apiUrl : String) (s : State) : Event → List Effect
  | .selectTab tab => [.setActiveTab tab]
  | .editInput value => [.setInputText value]
  | .predict net => pressPredict apiUrl net s

/-- The state after one event. -/
def step (apiUrl : String) (s : State) (e : Event) : State :=
  applyEffects s (handle apiUrl s e)

/-- The state after a sequence of events. -/
def run (apiUrl : String) (s : State) (events : List Event) : State :=
  events.foldl (step apiUrl) s

/-! ## Predicates used in the statements -/

/-- The input text is empty or consists of white space only. -/
def blank (text : String) : Prop :=
  ∀ c ∈ text.data, isJSWhiteSpace c = true

instance (text : String) : Decidable (blank text) :=
  inferInstanceAs (Decidable (∀ c ∈ text.data, isJSWhiteSpace c = true))

/-- Can the value be destructured by an array pattern?  Among JSON values
only arrays and strings are iterable. -/
def iterable : JSON → Bool
  | .arr _ => true
  | .str _ => true
  | _ => false

/-- Is the effect a call of `setMetricsData`? -/
def Effect.isSetMetricsData : Effect → Bool
  | .setMetricsData _ => true
  | _ => false

/-- Is the effect a call of `setLoading`? -/
def Effect.isSetLoading : Effect → Bool
  | .setLoading _ => true
  | _ => false

/-- Is the effect a call of `setActiveTab`? -/
def Effect.isSetActiveTab : Effect → Bool
  | .setActiveTab _ => true
  | _ => false

/-- The five fields of a MetricsSnapshot. -/
def snapshotKeys : List String :=
  ["overall", "chemical", "disease", "entity_distribution", "training_progress"]

/-- Is the field `key` of the body present and not null? -/
def hasField (body : JSON) (key : String) : Bool :=
  match readProp key (some body) with
  | .ok v => !nullish v
  | .error _ => false

/-- Does the body carry the five fields of a MetricsSnapshot? -/
def snapshotShaped (body : JSON) : Bool :=
  snapshotKeys.all (hasField body)

/-- Is the value a number? -/
def isNumber : JSValue → Bool
  | some (.num _) => true
  | _ => false

/-- Is the value a string? -/
def isText : JSValue → Bool
  | some (.str _) => true
  | _ => false

/-- Is the field `key` of `record` a number? -/
def fieldIsNumber (record : JSValue) (key : String) : Bool :=
  match readProp key record with
  | .ok v => isNumber v
  | .error _ => false

/-- Does the record hold numbers for `precision`, `recall` and `f1_score`? -/
def scoresValid (record : JSValue) : Bool :=
  fieldIsNumber record "precision" && fieldIsNumber record "recall"
    && fieldIsNumber record "f1_score"

/-- Is the field `key` of the body a record of scores, with a numeric
`support` when `withSupport` is set? -/
def recordValid (body : JSON) (key : String) (withSupport : Bool) : Bool :=
  match readProp key (some body) with
  | .ok record => scoresValid record && (!withSupport || fieldIsNumber record "support")
  | .error _ => false

/-- Is the field `key` of the body an object? -/
def fieldIsObject (body : JSON) (key : String) : Bool :=
  match readProp key (some body) with
  | .ok (some (.obj _)) => true
  | _ => false

/-- Is the field `key` of the body an array? -/
def fieldIsArray (body : JSON) (key : String) : Bool :=
  match readProp key (some body) with
  | .ok (some (.arr _)) => true
  | _ => false

/-- A MetricsSnapshot as the data model describes it: score records `overall`,
`chemical` and `disease` (the last two with `support`), the counts
`entity_distribution` and the sequence `training_progress`. -/
def snapshotValid (body : JSON) : Bool :=
  recordValid body "overall" false && recordValid body "chemical" true
    && recordValid body "disease" true && fieldIsObject body "entity_distribution"
    && fieldIsArray body "training_progress"

/-- The state once the promise chain of the metrics loader has settled, the
events `before` having happened since mount. -/
def afterLoad (apiUrl : String) (net : Request → Except JSError Response)
    (before : List Event) : State :=
  applyEffects (run apiUrl initialState before) (loadMetrics apiUrl net)

/-- The state of a session: the events `before`, the settling of the metrics
loader, then the events `after`. -/
def sessionState (apiUrl : String) (net : Request → Except JSError Response)
    (before after : List Event) : State :=
  run apiUrl (afterLoad apiUrl net before) after

/-! ## Sample states -/

/-- A state whose input text is white space only. -/
def whiteSpaceState (processing : Bool) : State :=
  { initialState with
    inputText := " \t\n"
    predictedEntities := [{ text := some (.str "aspirin"), type := some (.str "Chemical") }]
    isProcessing := processing }

/-- A state with a request in flight. -/
def busyState (text : String) : State :=
  { initialState with inputText := text, isProcessing := true }

/-- A state ready for a prediction, holding the result of an earlier one. -/
def readyState (text : String) : State :=
  { initialState with
    inputText := text
    predictedEntities := [{ text := some (.str "insulin"), type := some (.str "Chemical") }] }

/-- A chart library that renders whatever it is given. -/
def chartsRender : Charts :=
  fun _ _ => .ok ()

/-- A response with success status carrying the given body. -/
def okResponse (body : JSON) : Response :=
  { ok := true, json := .ok body }

/-- The example body of the Gradio comment in `predictEntities`. -/
def aspirinBody : JSON :=
  .obj [("data", .arr [.arr
    [.arr [.str "aspirin", .str "Chemical"], .arr [.str "diabetes", .str "Disease"]]])]

/-- One precision / recall / F1 record. -/
def sampleScores (p r f : ℚ) : JSON :=
  .obj [("precision", .num (.finite p)), ("recall", .num (.finite r)),
        ("f1_score", .num (.finite f)), ("support", .num (.finite 100))]

/-- A body of MetricsSnapshot shape. -/
def sampleSnapshot : JSON :=
  .obj [("overall", sampleScores (7/8) (3/4) (13/16)),
        ("chemical", sampleScores (7/8) (7/8) (7/8)),
        ("disease", sampleScores (3/4) (3/4) (3/4)),
        ("entity_distribution",
          .obj [("chemical", .num (.finite 60)), ("disease", .num (.finite 40))]),
        ("training_progress",
          .arr [.obj [("epoch", .num (.finite 1)), ("train_loss", .num (.finite (1/2))),
                      ("val_loss", .num (.finite (3/4)))]])]

/-- A body with the metric records but without `training_progress`. -/
def snapshotWithoutTraining : JSON :=
  .obj [("overall", sampleScores (7/8) (3/4) (13/16)),
        ("chemical", sampleScores (7/8) (7/8) (7/8)),
        ("disease", sampleScores (3/4) (3/4) (3/4)),
        ("entity_distribution",
          .obj [("chemical", .num (.finite 60)), ("disease", .num (.finite 40))])]

/-- A session: a look at the details, then a prediction on the predict tab
that is answered with `aspirinBody`. -/
def sampleSession : List Event :=
  [.selectTab "details", .selectTab "predict", .editInput "aspirin for diabetes",
   .predict (fun _ => .ok (okResponse aspirinBody))]

/-- The double nearest to `0.9505`. -/
def fractionA : ℚ :=
  8561342891631313 / 2 ^ 53

/-- The double nearest to `0.90095`. -/
def fractionB : ℚ :=
  8115036168558897 / 2 ^ 53

/-- A body of MetricsSnapshot shape whose overall F1 is `fractionB` and whose
chemical F1 is `fractionA`. -/
def roundingSnapshot : JSON :=
  .obj [("overall", sampleScores (7/8) (3/4) fractionB),
        ("chemical", sampleScores (7/8) (7/8) fractionA),
        ("disease", sampleScores (3/4) (3/4) (3/4)),
        ("entity_distribution",
          .obj [("chemical", .num (.finite 60)), ("disease", .num (.finite 40))]),
        ("training_progress", .arr [])]

/-- A prediction response whose first entity has an object for its text. -/
def objectEntityBody : JSON :=
  .obj [("data", .arr [.arr [.arr [.obj [("name", .str "aspirin")], .str "Chemical"]]])]

/-- A session on the predict tab that receives `objectEntityBody`. -/
def objectEntitySession : List Event :=
  [.selectTab "predict", .editInput "aspirin",
   .predict (fun _ => .ok (okResponse objectEntityBody))]

/-! ## Auxiliary facts -/

theorem roundHalfEven_sub_le (m : ℚ) : |(roundHalfEven m : ℚ) - m| ≤ 1 / 2 := by
  have h1 := Int.floor_le m
  have h2 := Int.lt_floor_add_one m
  unfold roundHalfEven
  split_ifs with ha hb hc
  · rw [abs_le]; constructor <;> linarith
  · push_cast; rw [abs_le]; constructor <;> linarith
  · have : m - ⌊m⌋ = 1 / 2 := le_antisymm (not_lt.mp hb) (not_lt.mp ha)
    rw [abs_le]; constructor <;> linarith
  · have : m - ⌊m⌋ = 1 / 2 := le_antisymm (not_lt.mp hb) (not_lt.mp ha)
    push_cast; rw [abs_le]; constructor <;> linarith

theorem roundHalfEven_of_near (m : ℚ) (n : ℤ) (h : |m - n| < 1 / 2) :
    roundHalfEven m = n := by
  have hle := roundHalfEven_sub_le m
  rw [abs_lt] at h
  rw [abs_le] at hle
  have h3 : |((roundHalfEven m : ℤ) : ℚ) - (n : ℚ)| < 1 := by
    rw [abs_lt]; constructor <;> linarith
  have h4 : |roundHalfEven m - n| < 1 := by
    exact_mod_cast h3
  have := Int.abs_lt_one_iff.mp h4
  omega

theorem roundHalfEven_nonneg (m : ℚ) (hm : 0 ≤ m) : 0 ≤ roundHalfEven m := by
  have hle := roundHalfEven_sub_le m
  rw [abs_le] at hle
  have h1 : (-1 : ℚ) < (roundHalfEven m : ℚ) := by linarith
  have h2 : (-1 : ℤ) < roundHalfEven m := by exact_mod_cast h1
  omega

theorem binade_of_bounds (a : ℚ) (e : ℤ) (he : -1022 ≤ e) (h1 : (2 : ℚ) ^ e ≤ a)
    (h2 : a < (2 : ℚ) ^ (e + 1)) : binade a = e := by
  have ha : 0 < a := lt_of_lt_of_le (by positivity) h1
  have hlog : Int.log 2 a = e := by
    apply le_antisymm
    · have := (Int.lt_zpow_iff_log_lt (b := 2) (by norm_num) ha).mp (by exact_mod_cast h2)
      omega
    · exact (Int.zpow_le_iff_le_log (b := 2) (by norm_num) ha).mp (by exact_mod_cast h1)
  unfold binade
  rw [hlog]
  exact max_eq_left he

theorem roundToDouble_of_bounds (y : ℚ) (e n : ℤ) (hy : 0 < y) (he : -1022 ≤ e)
    (h1 : (2 : ℚ) ^ e ≤ y) (h2 : y < (2 : ℚ) ^ (e + 1))
    (hn : |y / 2 ^ (e - 52) - n| < 1 / 2) (hfin : (n : ℚ) * 2 ^ (e - 52) < 2 ^ (1024 : ℕ)) :
    roundToDouble y = .finite ((n : ℚ) * 2 ^ (e - 52)) := by
  have habs : |y| = y := abs_of_pos hy
  have hb : binade y = e := binade_of_bounds y e he h1 h2
  have hr : roundHalfEven (y / 2 ^ (e - 52)) = n := roundHalfEven_of_near _ n hn
  unfold roundToDouble
  rw [habs, hb, hr]
  rw [if_neg (ne_of_gt hy), if_neg (not_le.mpr hfin), if_neg (not_lt.mpr (le_of_lt hy))]

theorem binade_le_six (y : ℚ) (hy : 0 < y) (h : y ≤ 100) : binade y ≤ 6 := by
  have hlog : Int.log 2 y < 7 :=
    (Int.lt_zpow_iff_log_lt (b := 2) (by norm_num) hy).mp (by norm_num; linarith)
  unfold binade
  exact max_le (by omega) (by norm_num)

theorem roundToDouble_near (y : ℚ) (h0 : 0 ≤ y) (h : y ≤ 100) :
    ∃ r, roundToDouble y = .finite r ∧ 0 ≤ r ∧ r ≤ 101 ∧ |r - y| ≤ 1 / 2 ^ 47 := by
  rcases eq_or_lt_of_le h0 with hz | hpos
  · refine ⟨0, ?_, le_refl _, by norm_num, ?_⟩
    · simp [roundToDouble, ← hz]
    · rw [← hz]; norm_num
  · have habs : |y| = y := abs_of_pos hpos
    have hb := binade_le_six y hpos h
    have hu : (0 : ℚ) < 2 ^ (binade y - 52) := by positivity
    have hu46 : (2 : ℚ) ^ (binade y - 52) ≤ 2 ^ (-46 : ℤ) :=
      zpow_le_zpow_right₀ (by norm_num) (by omega)
    have hu46' : (2 : ℚ) ^ (-46 : ℤ) = 1 / 2 ^ 46 := by norm_num
    have hk := roundHalfEven_sub_le (y / 2 ^ (binade y - 52))
    have hk0 := roundHalfEven_nonneg (y / 2 ^ (binade y - 52)) (by positivity)
    have hk0' : (0 : ℚ) ≤ (roundHalfEven (y / 2 ^ (binade y - 52)) : ℚ) := by
      exact_mod_cast hk0
    have hmul : |(roundHalfEven (y / 2 ^ (binade y - 52)) : ℚ) * 2 ^ (binade y - 52) - y|
        ≤ 1 / 2 * 2 ^ (binade y - 52) := by
      have : (roundHalfEven (y / 2 ^ (binade y - 52)) : ℚ) * 2 ^ (binade y - 52) - y
          = ((roundHalfEven (y / 2 ^ (binade y - 52)) : ℚ) - y / 2 ^ (binade y - 52))
            * 2 ^ (binade y - 52) := by
        field_simp
      rw [this, abs_mul, abs_of_pos hu]
      exact mul_le_mul_of_nonneg_right hk (le_of_lt hu)
    have herr : |(roundHalfEven (y / 2 ^ (binade y - 52)) : ℚ) * 2 ^ (binade y - 52) - y|
        ≤ 1 / 2 ^ 47 := by
      calc _ ≤ 1 / 2 * 2 ^ (binade y - 52) := hmul
        _ ≤ 1 / 2 * (1 / 2 ^ 46) := by rw [hu46'] at hu46; linarith
        _ = 1 / 2 ^ 47 := by norm_num
    have hle := (abs_le.mp herr).2
    have hr101 : (roundHalfEven (y / 2 ^ (binade y - 52)) : ℚ) * 2 ^ (binade y - 52) ≤ 101 := by
      have : (1 : ℚ) / 2 ^ 47 ≤ 1 := by norm_num
      linarith
    refine ⟨_, ?_, mul_nonneg hk0' (le_of_lt hu), hr101, herr⟩
    unfold roundToDouble
    rw [habs, if_neg (ne_of_gt hpos), if_neg, if_neg (not_lt.mpr (le_of_lt hpos))]
    rw [not_le]
    calc _ ≤ (101 : ℚ) := hr101
      _ < 2 ^ (1024 : ℕ) := by norm_num

theorem fixedUnits_near (x : ℚ) (digits : ℕ) (hx : 0 ≤ x) :
    |(fixedUnits x digits : ℚ) / 10 ^ digits - x| ≤ 1 / (2 * 10 ^ digits) := by
  have hp : (0 : ℚ) < 10 ^ digits := by positivity
  have ha : (0 : ℚ) ≤ x * 10 ^ digits + 1 / 2 := by positivity
  have h1 := Nat.floor_le ha
  have h2 := Nat.lt_floor_add_one (x * 10 ^ digits + 1 / 2)
  unfold fixedUnits
  rw [abs_le]
  constructor
  · rw [le_sub_iff_add_le, neg_add_eq_sub, le_div_iff₀ hp, sub_mul]
    have : (1 : ℚ) / (2 * 10 ^ digits) * 10 ^ digits = 1 / 2 := by field_simp; ring
    rw [this]
    linarith
  · rw [sub_le_iff_le_add, div_le_iff₀ hp, add_mul]
    have : (1 : ℚ) / (2 * 10 ^ digits) * 10 ^ digits = 1 / 2 := by field_simp; ring
    rw [this]
    linarith


theorem trim_data_eq_nil_iff (text : String) : (trim text).data = [] ↔ blank text := by
  unfold trim blank
  simp only [List.reverse_eq_nil_iff, List.dropWhile_eq_nil_iff, List.mem_reverse]
  constructor
  · intro h c hc
    by_contra hw
    have hne : text.data.dropWhile isJSWhiteSpace ≠ [] := by
      intro hnil
      exact hw ((List.dropWhile_eq_nil_iff.mp hnil) c hc)
    have hhead := List.head_dropWhile_not isJSWhiteSpace text.data hne
    have hmem := List.head_mem hne
    rw [h _ hmem] at hhead
    exact absurd hhead (by decide)
  · intro h c hc
    exact h c ((List.dropWhile_sublist isJSWhiteSpace).subset hc)

theorem truthy_trim_eq_false_iff (text : String) :
    truthy (some (.str (trim text))) = false ↔ blank text := by
  rw [← trim_data_eq_nil_iff]
  simp [truthy]

theorem truthy_trim_of_not_blank {text : String} (h : ¬ blank text) :
    truthy (some (.str (trim text))) = true := by
  cases ht : truthy (some (.str (trim text)))
  · exact absurd ((truthy_trim_eq_false_iff text).mp ht) h
  · rfl

theorem predictEntities_of_blank (apiUrl : String) (net : Request → Except JSError Response)
    (s : State) (h : blank s.inputText) : predictEntities apiUrl net s = [] := by
  simp [predictEntities, (truthy_trim_eq_false_iff s.inputText).mpr h]

theorem predictEntities_of_not_blank (apiUrl : String)
    (net : Request → Except JSError Response) (s : State) (h : ¬ blank s.inputText) :
    predictEntities apiUrl net s =
      [Effect.setIsProcessing true, Effect.fetch (predictRequest apiUrl s.inputText)]
        ++ (match tryBlock (net (predictRequest apiUrl s.inputText)) with
            | .ok entities => [Effect.setPredictedEntities entities]
            | .error e =>
              [Effect.consoleError "Prediction error:" e,
               Effect.alert "API connection failed. Please check your backend connection.",
               Effect.setPredictedEntities []])
        ++ [Effect.setIsProcessing false] := by
  simp [predictEntities, truthy_trim_of_not_blank h]

/-- Called directly, `predictEntities` does not look at `isProcessing`: with
non-blank text it issues its request even when the flag is already set.  The
in-flight guard lives on the button only. -/
theorem predictEntities_ignores_isProcessing (apiUrl : String)
    (net : Request → Except JSError Response) (s : State) (h : ¬ blank s.inputText) :
    ∃ rest, predictEntities apiUrl net { s with isProcessing := true } =
      Effect.setIsProcessing true :: Effect.fetch (predictRequest apiUrl s.inputText) :: rest := by
  have hs : ¬ blank ({ s with isProcessing := true } : State).inputText := h
  exact ⟨_, predictEntities_of_not_blank apiUrl net _ hs⟩

theorem mapArray_destructurePair_pairs (pairs : List (JSON × JSON)) :
    mapArray destructurePair (pairs.map (fun p => JSON.arr [p.1, p.2]))
      = .ok (pairs.map (fun p => ({ text := some p.1, type := some p.2 } : PredictedEntity))) := by
  induction pairs with
  | nil => rfl
  | cons p ps ih => simp [mapArray, destructurePair, ih]

theorem destructurePair_of_not_iterable {x : JSON} (h : iterable x = false) :
    destructurePair x = .error .typeError := by
  cases x <;> simp_all [iterable, destructurePair]

theorem mapArray_error_of_not_iterable {xs : List JSON} {x : JSON} (hx : x ∈ xs)
    (h : iterable x = false) : ∃ e, mapArray destructurePair xs = .error e := by
  induction xs with
  | nil => cases hx
  | cons y ys ih =>
    cases hy : destructurePair y with
    | error e => exact ⟨e, by simp [mapArray, hy]⟩
    | ok v =>
      rcases List.mem_cons.mp hx with rfl | hmem
      · rw [destructurePair_of_not_iterable h] at hy
        cases hy
      · obtain ⟨e, he⟩ := ih hmem
        exact ⟨e, by simp [mapArray, hy, he]⟩

theorem mapEntities_error_of_not_array {first : JSValue}
    (h : ∀ xs, first ≠ some (.arr xs)) : mapEntities first = .error .typeError := by
  cases first with
  | none => rfl
  | some v =>
    cases v with
    | arr xs => exact absurd rfl (h xs)
    | _ => rfl

theorem applyEffects_metricsData (s : State) (effects : List Effect)
    (h : ∀ e ∈ effects, e.isSetMetricsData = false) :
    (applyEffects s effects).metricsData = s.metricsData := by
  induction effects generalizing s with
  | nil => rfl
  | cons e es ih =>
    have he : e.isSetMetricsData = false := h e (List.mem_cons_self e es)
    have hes : ∀ x ∈ es, x.isSetMetricsData = false :=
      fun x hx => h x (List.mem_cons_of_mem e hx)
    show (applyEffects (applyEffect s e) es).metricsData = s.metricsData
    rw [ih (applyEffect s e) hes]
    cases e <;> first | rfl | cases he

theorem predictEntities_never_sets_metricsData (apiUrl : String)
    (net : Request → Except JSError Response) (s : State) :
    ∀ e ∈ predictEntities apiUrl net s, e.isSetMetricsData = false := by
  by_cases hb : blank s.inputText
  · simp [predictEntities_of_blank apiUrl net s hb]
  · rw [predictEntities_of_not_blank apiUrl net s hb]
    cases tryBlock (net (predictRequest apiUrl s.inputText)) <;>
      simp [Effect.isSetMetricsData]

theorem handle_never_sets_metricsData (apiUrl : String) (s : State) (ev : Event) :
    ∀ e ∈ handle apiUrl s ev, e.isSetMetricsData = false := by
  cases ev with
  | selectTab tab => simp [handle, Effect.isSetMetricsData]
  | editInput value => simp [handle, Effect.isSetMetricsData]
  | predict net =>
    simp only [handle, pressPredict]
    split
    · simp
    · exact predictEntities_never_sets_metricsData apiUrl net s

theorem run_metricsData (apiUrl : String) (s : State) (events : List Event) :
    (run apiUrl s events).metricsData = s.metricsData := by
  induction events generalizing s with
  | nil => rfl
  | cons ev evs ih =>
    show (run apiUrl (step apiUrl s ev) evs).metricsData = s.metricsData
    rw [ih (step apiUrl s ev)]
    exact applyEffects_metricsData s _ (handle_never_sets_metricsData apiUrl s ev)

theorem render_of_metricsData_null (charts : Charts) (s : State)
    (h : s.metricsData = .null) : render charts s = .loadingPlaceholder := by
  simp [render, h, truthy]

theorem filter_tabs_of_mem {tab : String} (h : tab ∈ tabs) :
    tabs.filter (fun t => tab == t) = [tab] := by
  simp only [tabs, List.mem_cons, List.mem_singleton, List.not_mem_nil, or_false] at h
  rcases h with rfl | rfl | rfl | rfl | rfl | rfl <;> decide

theorem applyEffects_loading (s : State) (effects : List Effect)
    (h : ∀ e ∈ effects, e.isSetLoading = false) :
    (applyEffects s effects).loading = s.loading := by
  induction effects generalizing s with
  | nil => rfl
  | cons e es ih =>
    have he : e.isSetLoading = false := h e (List.mem_cons_self e es)
    have hes : ∀ x ∈ es, x.isSetLoading = false :=
      fun x hx => h x (List.mem_cons_of_mem e hx)
    show (applyEffects (applyEffect s e) es).loading = s.loading
    rw [ih (applyEffect s e) hes]
    cases e <;> first | rfl | cases he

theorem applyEffects_activeTab (s : State) (effects : List Effect)
    (h : ∀ e ∈ effects, e.isSetActiveTab = false) :
    (applyEffects s effects).activeTab = s.activeTab := by
  induction effects generalizing s with
  | nil => rfl
  | cons e es ih =>
    have he : e.isSetActiveTab = false := h e (List.mem_cons_self e es)
    have hes : ∀ x ∈ es, x.isSetActiveTab = false :=
      fun x hx => h x (List.mem_cons_of_mem e hx)
    show (applyEffects (applyEffect s e) es).activeTab = s.activeTab
    rw [ih (applyEffect s e) hes]
    cases e <;> first | rfl | cases he

theorem predictEntities_keeps_loading_and_tab (apiUrl : String)
    (net : Request → Except JSError Response) (s : State) :
    ∀ e ∈ predictEntities apiUrl net s,
      e.isSetLoading = false ∧ e.isSetActiveTab = false := by
  by_cases hb : blank s.inputText
  · simp [predictEntities_of_blank apiUrl net s hb]
  · rw [predictEntities_of_not_blank apiUrl net s hb]
    cases tryBlock (net (predictRequest apiUrl s.inputText)) <;>
      simp [Effect.isSetLoading, Effect.isSetActiveTab]

theorem pressPredict_keeps_loading_and_tab (apiUrl : String)
    (net : Request → Except JSError Response) (s : State) :
    ∀ e ∈ pressPredict apiUrl net s, e.isSetLoading = false ∧ e.isSetActiveTab = false := by
  unfold pressPredict
  split
  · simp
  · exact predictEntities_keeps_loading_and_tab apiUrl net s

theorem step_loading (apiUrl : String) (s : State) (ev : Event) :
    (step apiUrl s ev).loading = s.loading := by
  cases ev with
  | selectTab tab => rfl
  | editInput value => rfl
  | predict net =>
    exact applyEffects_loading s _
      (fun e he => (pressPredict_keeps_loading_and_tab apiUrl net s e he).1)

theorem run_loading (apiUrl : String) (s : State) (events : List Event) :
    (run apiUrl s events).loading = s.loading := by
  induction events generalizing s with
  | nil => rfl
  | cons ev evs ih =>
    show (run apiUrl (step apiUrl s ev) evs).loading = s.loading
    rw [ih (step apiUrl s ev), step_loading]

theorem step_activeTab_mem (apiUrl : String) (s : State) (ev : Event)
    (hs : s.activeTab ∈ tabs) (hev : ∀ t, ev = Event.selectTab t → t ∈ tabs) :
    (step apiUrl s ev).activeTab ∈ tabs := by
  cases ev with
  | selectTab tab => exact hev tab rfl
  | editInput value => exact hs
  | predict net =>
    have h : (step apiUrl s (.predict net)).activeTab = s.activeTab :=
      applyEffects_activeTab s _
        (fun e he => (pressPredict_keeps_loading_and_tab apiUrl net s e he).2)
    rw [h]
    exact hs

theorem run_activeTab_mem (apiUrl : String) (s : State) (events : List Event)
    (hs : s.activeTab ∈ tabs) (hev : ∀ t, Event.selectTab t ∈ events → t ∈ tabs) :
    (run apiUrl s events).activeTab ∈ tabs := by
  induction events generalizing s with
  | nil => exact hs
  | cons ev evs ih =>
    show (run apiUrl (step apiUrl s ev) evs).activeTab ∈ tabs
    apply ih
    · exact step_activeTab_mem apiUrl s ev hs
        (fun t ht => hev t (by rw [ht]; exact List.mem_cons_self _ _))
    · exact fun t ht => hev t (List.mem_cons_of_mem ev ht)

theorem loadMetrics_of_body (apiUrl : String) (net : Request → Except JSError Response)
    (r : Response) (body : JSON) (hnet : net (metricsRequest apiUrl) = .ok r)
    (hjson : r.json = .ok body) :
    loadMetrics apiUrl net
      = [Effect.fetch (metricsRequest apiUrl), Effect.setMetricsData body,
         Effect.setLoading false] := by
  simp [loadMetrics, hnet, hjson]

theorem loadMetrics_keeps_activeTab (apiUrl : String)
    (net : Request → Except JSError Response) (s : State) :
    (applyEffects s (loadMetrics apiUrl net)).activeTab = s.activeTab := by
  apply applyEffects_activeTab
  unfold loadMetrics
  cases hnet : net (metricsRequest apiUrl) with
  | error e => simp [hnet, Effect.isSetActiveTab]
  | ok r =>
    cases hjson : r.json <;> simp [hnet, hjson, Effect.isSetActiveTab]

theorem render_dashboard_or_crashed (charts : Charts) (s : State) (hl : s.loading = false)
    (ht : truthy (some s.metricsData) = true) :
    render charts s = .dashboard (tabs.map (fun tab => (tab, s.activeTab == tab)))
        (tabs.filter (fun tab => s.activeTab == tab))
      ∨ ∃ e, render charts s = .crashed e := by
  unfold render
  simp only [hl, ht, Bool.not_true, Bool.or_self, Bool.false_eq_true, ↓reduceIte]
  cases deriveMetrics s with
  | error e => exact Or.inr ⟨e, rfl⟩
  | ok d =>
    cases hb : fieldPercent d.overallMetrics "f1_score" 2 with
    | error e => exact Or.inr ⟨e, by simp [hb]⟩
    | ok t =>
      cases hp : renderPanels charts s d (tabs.filter (fun tab => s.activeTab == tab)) with
      | error e => exact Or.inr ⟨e, by simp [hb, hp]⟩
      | ok u => exact Or.inl (by simp [hb, hp])

theorem render_ne_placeholder_of_truthy (charts : Charts) (s : State) (hl : s.loading = false)
    (ht : truthy (some s.metricsData) = true) : render charts s ≠ .loadingPlaceholder := by
  rcases render_dashboard_or_crashed charts s hl ht with h | ⟨e, h⟩ <;> rw [h] <;> simp

theorem fieldIsNumber_elim {record : JSValue} {key : String}
    (h : fieldIsNumber record key = true) :
    ∃ n, readProp key record = .ok (some (.num n)) := by
  unfold fieldIsNumber at h
  cases hr : readProp key record with
  | error e => simp [hr] at h
  | ok v =>
    rw [hr] at h
    cases v with
    | none => cases h
    | some j => cases j <;> first | exact ⟨_, rfl⟩ | cases h

theorem timesHundred_num (n : JSNumber) : ∃ p, timesHundred (some (.num n)) = .ok p := by
  cases n <;> exact ⟨_, rfl⟩

theorem fieldPercent_of_number {record : JSValue} {key : String} (digits : ℕ)
    (h : fieldIsNumber record key = true) : ∃ t, fieldPercent record key digits = .ok t := by
  obtain ⟨n, hn⟩ := fieldIsNumber_elim h
  obtain ⟨p, hp⟩ := timesHundred_num n
  exact ⟨p.toFixed digits, by simp only [fieldPercent, hn, percentText, hp]⟩

theorem scoresValid_elim {record : JSValue} (h : scoresValid record = true) :
    fieldIsNumber record "precision" = true ∧ fieldIsNumber record "recall" = true
      ∧ fieldIsNumber record "f1_score" = true := by
  simp only [scoresValid, Bool.and_eq_true] at h
  exact ⟨h.1.1, h.1.2, h.2⟩

theorem recordValid_elim {body : JSON} {key : String} {withSupport : Bool}
    (h : recordValid body key withSupport = true) :
    ∃ record, readProp key (some body) = .ok record ∧ scoresValid record = true
      ∧ (withSupport = true → fieldIsNumber record "support" = true) := by
  unfold recordValid at h
  cases hr : readProp key (some body) with
  | error e => simp [hr] at h
  | ok record =>
    rw [hr] at h
    simp only [Bool.and_eq_true, Bool.or_eq_true, Bool.not_eq_true'] at h
    refine ⟨record, rfl, h.1, ?_⟩
    intro hw
    rcases h.2 with h2 | h2
    · rw [hw] at h2
      cases h2
    · exact h2

theorem fieldIsObject_elim {body : JSON} {key : String} (h : fieldIsObject body key = true) :
    ∃ fields, readProp key (some body) = .ok (some (.obj fields)) := by
  unfold fieldIsObject at h
  cases hr : readProp key (some body) with
  | error e => simp [hr] at h
  | ok v =>
    rw [hr] at h
    cases v with
    | none => simp at h
    | some j => cases j <;> first | exact ⟨_, rfl⟩ | simp at h

theorem fieldIsArray_elim {body : JSON} {key : String} (h : fieldIsArray body key = true) :
    ∃ xs, readProp key (some body) = .ok (some (.arr xs)) := by
  unfold fieldIsArray at h
  cases hr : readProp key (some body) with
  | error e => simp [hr] at h
  | ok v =>
    rw [hr] at h
    cases v with
    | none => simp at h
    | some j => cases j <;> first | exact ⟨_, rfl⟩ | simp at h

theorem truthy_of_readProp_some {body : JSON} {key : String} {v : JSON}
    (h : readProp key (some body) = .ok (some v)) : truthy (some body) = true := by
  cases body <;> first | rfl | simp [readProp] at h

theorem deriveMetrics_of_snapshotValid (s : State) (h : snapshotValid s.metricsData = true) :
    ∃ d, deriveMetrics s = .ok d ∧ scoresValid d.overallMetrics = true
      ∧ scoresValid d.chemical = true ∧ fieldIsNumber d.chemical "support" = true
      ∧ scoresValid d.disease = true ∧ fieldIsNumber d.disease "support" = true
      ∧ (∃ fields, d.entityDistribution = some (.obj fields))
      ∧ ∃ xs, d.trainingProgress = some (.arr xs) := by
  simp only [snapshotValid, Bool.and_eq_true] at h
  obtain ⟨⟨⟨⟨ho, hc⟩, hd⟩, he⟩, ht⟩ := h
  obtain ⟨o, hro, hso, -⟩ := recordValid_elim ho
  obtain ⟨c, hrc, hsc, hcs⟩ := recordValid_elim hc
  obtain ⟨dd, hrd, hsd, hds⟩ := recordValid_elim hd
  obtain ⟨fields, hre⟩ := fieldIsObject_elim he
  obtain ⟨xs, hrt⟩ := fieldIsArray_elim ht
  obtain ⟨hop, hor, hof⟩ := scoresValid_elim hso
  obtain ⟨hcp, hcr, hcf⟩ := scoresValid_elim hsc
  obtain ⟨hdp, hdr, hdf⟩ := scoresValid_elim hsd
  obtain ⟨nop, eop⟩ := fieldIsNumber_elim hop
  obtain ⟨nor, eor⟩ := fieldIsNumber_elim hor
  obtain ⟨nof, eof⟩ := fieldIsNumber_elim hof
  obtain ⟨ncp, ecp⟩ := fieldIsNumber_elim hcp
  obtain ⟨ncr, ecr⟩ := fieldIsNumber_elim hcr
  obtain ⟨ncf, ecf⟩ := fieldIsNumber_elim hcf
  obtain ⟨ndp, edp⟩ := fieldIsNumber_elim hdp
  obtain ⟨ndr, edr⟩ := fieldIsNumber_elim hdr
  obtain ⟨ndf, edf⟩ := fieldIsNumber_elim hdf
  obtain ⟨p1, hp1⟩ := timesHundred_num nop
  obtain ⟨p2, hp2⟩ := timesHundred_num nor
  obtain ⟨p3, hp3⟩ := timesHundred_num nof
  obtain ⟨p4, hp4⟩ := timesHundred_num ncf
  obtain ⟨p5, hp5⟩ := timesHundred_num ndf
  have key : ∃ r, deriveMetrics s = .ok r ∧ r.overallMetrics = o ∧ r.chemical = c
      ∧ r.disease = dd ∧ r.entityDistribution = some (.obj fields)
      ∧ r.trainingProgress = some (.arr xs) := by
    simp only [deriveMetrics, hro, hrc, hrd, hre, hrt, eop, eor, eof, ecp, ecr, ecf, edp, edr,
      edf, hp1, hp2, hp3, hp4, hp5, bind, Except.bind, pure, Except.pure]
    exact ⟨_, rfl, rfl, rfl, rfl, rfl, rfl⟩
  obtain ⟨r, hr, h1, h2, h3, h4, h5⟩ := key
  refine ⟨r, hr, ?_, ?_, ?_, ?_, ?_, ⟨fields, h4⟩, ⟨xs, h5⟩⟩
  · rw [h1]; exact hso
  · rw [h2]; exact hsc
  · rw [h2]; exact hcs rfl
  · rw [h3]; exact hsd
  · rw [h3]; exact hds rfl

theorem reactChild_of_isNumber {v : JSValue} (h : isNumber v = true) :
    reactChild v = .ok () := by
  cases v with
  | none => rfl
  | some j => cases j <;> first | rfl | cases h

theorem reactChild_of_isText {v : JSValue} (h : isText v = true) : reactChild v = .ok () := by
  cases v with
  | none => rfl
  | some j => cases j <;> first | rfl | cases h

theorem overviewPanel_of_valid (charts : Charts) (d : Derived)
    (hs : scoresValid d.overallMetrics = true)
    (he : ∃ fields, d.entityDistribution = some (.obj fields))
    (hc : charts "overview" d = .ok ()) : overviewPanel charts d = .ok () := by
  obtain ⟨hp, hr, hf⟩ := scoresValid_elim hs
  obtain ⟨t1, e1⟩ := fieldPercent_of_number 2 hp
  obtain ⟨t2, e2⟩ := fieldPercent_of_number 2 hr
  obtain ⟨t3, e3⟩ := fieldPercent_of_number 2 hf
  obtain ⟨fields, hfields⟩ := he
  simp only [overviewPanel, e1, e2, e3, hfields, readProp, hc, bind, Except.bind]

theorem analysisPanel_of_valid (charts : Charts) (d : Derived)
    (hc : scoresValid d.chemical = true) (hd : scoresValid d.disease = true)
    (hcharts : charts "analysis" d = .ok ()) : analysisPanel charts d = .ok () := by
  obtain ⟨t1, e1⟩ := fieldPercent_of_number 1 (scoresValid_elim hc).2.2
  obtain ⟨t2, e2⟩ := fieldPercent_of_number 1 (scoresValid_elim hd).2.2
  simp only [analysisPanel, e1, e2, hcharts, bind, Except.bind]

theorem trainingPanel_of_valid (charts : Charts) (d : Derived)
    (ht : ∃ xs, d.trainingProgress = some (.arr xs))
    (hcharts : charts "training" d = .ok ()) : trainingPanel charts d = .ok () := by
  obtain ⟨xs, hxs⟩ := ht
  simp only [trainingPanel, hxs, readLength, reactChild, validChild, hcharts, bind, Except.bind,
    if_true]

theorem detailsPanel_of_valid (d : Derived)
    (hc : scoresValid d.chemical = true) (hcs : fieldIsNumber d.chemical "support" = true)
    (hd : scoresValid d.disease = true) (hds : fieldIsNumber d.disease "support" = true) :
    detailsPanel d = .ok () := by
  obtain ⟨hcp, hcr, hcf⟩ := scoresValid_elim hc
  obtain ⟨hdp, hdr, hdf⟩ := scoresValid_elim hd
  obtain ⟨t1, e1⟩ := fieldPercent_of_number 2 hcp
  obtain ⟨t2, e2⟩ := fieldPercent_of_number 2 hcr
  obtain ⟨t3, e3⟩ := fieldPercent_of_number 2 hcf
  obtain ⟨t4, e4⟩ := fieldPercent_of_number 2 hdp
  obtain ⟨t5, e5⟩ := fieldPercent_of_number 2 hdr
  obtain ⟨t6, e6⟩ := fieldPercent_of_number 2 hdf
  obtain ⟨n1, s1⟩ := fieldIsNumber_elim hcs
  obtain ⟨n2, s2⟩ := fieldIsNumber_elim hds
  have c1 : reactChild (some (.num n1)) = .ok () := reactChild_of_isNumber rfl
  have c2 : reactChild (some (.num n2)) = .ok () := reactChild_of_isNumber rfl
  simp only [detailsPanel, e1, e2, e3, e4, e5, e6, s1, s2, c1, c2, bind, Except.bind]

theorem entityChildren_of_text (entities : List PredictedEntity)
    (h : ∀ entity ∈ entities, isText entity.type = true ∧ isText entity.text = true) :
    entityChildren entities = .ok () := by
  induction entities with
  | nil => rfl
  | cons entity rest ih =>
    have he := h entity (List.mem_cons_self entity rest)
    simp only [entityChildren, reactChild_of_isText he.1, reactChild_of_isText he.2]
    exact ih (fun x hx => h x (List.mem_cons_of_mem entity hx))

theorem panelBody_of_valid (charts : Charts) (s : State) (d : Derived) (tab : String)
    (htab : tab ∈ tabs)
    (hso : scoresValid d.overallMetrics = true)
    (hsc : scoresValid d.chemical = true) (hcs : fieldIsNumber d.chemical "support" = true)
    (hsd : scoresValid d.disease = true) (hds : fieldIsNumber d.disease "support" = true)
    (he : ∃ fields, d.entityDistribution = some (.obj fields))
    (ht : ∃ xs, d.trainingProgress = some (.arr xs))
    (hentities : ∀ entity ∈ s.predictedEntities,
      isText entity.type = true ∧ isText entity.text = true)
    (hcharts : charts tab d = .ok ()) : panelBody charts s d tab = .ok () := by
  simp only [tabs, List.mem_cons, List.mem_singleton, List.not_mem_nil, or_false] at htab
  rcases htab with rfl | rfl | rfl | rfl | rfl | rfl
  · simp [panelBody, overviewPanel_of_valid charts d hso he hcharts]
  · simp [panelBody, analysisPanel_of_valid charts d hsc hsd hcharts]
  · simp [panelBody, trainingPanel_of_valid charts d ht hcharts]
  · simp [panelBody, hcharts]
  · simp [panelBody, detailsPanel_of_valid d hsc hcs hsd hds]
  · simp [panelBody, entityChildren_of_text s.predictedEntities hentities]

theorem render_of_snapshotValid (charts : Charts) (s : State) (hl : s.loading = false)
    (hvalid : snapshotValid s.metricsData = true) (htab : s.activeTab ∈ tabs)
    (hentities : ∀ entity ∈ s.predictedEntities,
      isText entity.type = true ∧ isText entity.text = true)
    (hcharts : ∀ d, charts s.activeTab d = .ok ()) :
    render charts s = .dashboard (tabs.map (fun tab => (tab, s.activeTab == tab)))
      [s.activeTab] := by
  have htruthy : truthy (some s.metricsData) = true := by
    simp only [snapshotValid, Bool.and_eq_true] at hvalid
    obtain ⟨xs, hxs⟩ := fieldIsArray_elim hvalid.2
    exact truthy_of_readProp_some hxs
  obtain ⟨d, hd, hso, hsc, hcs, hsd, hds, he, ht⟩ := deriveMetrics_of_snapshotValid s hvalid
  obtain ⟨t, hbadge⟩ := fieldPercent_of_number 2 (scoresValid_elim hso).2.2
  have hpanel := panelBody_of_valid charts s d s.activeTab htab hso hsc hcs hsd hds he ht
    hentities (hcharts d)
  simp only [render, hl, htruthy, hd, hbadge, filter_tabs_of_mem htab, renderPanels, hpanel,
    Bool.not_true, Bool.or_self, Bool.false_eq_true, ↓reduceIte]

/-! ## Prediction client: guards -/

/-- C1: when `inputText` is empty or white space only, `predictEntities` (and
the button press that triggers it) performs no effect at all: no request is
issued and the state, in particular `isProcessing` and `predictedEntities`, is
what it was. -/
theorem predictEntities_blank_noop (apiUrl : String)
    (net : Request → Except JSError Response) (s : State) (h : blank s.inputText) :
    (∀ e ∈ predictEntities apiUrl net s, e.isFetch = false)
      ∧ (applyEffects s (predictEntities apiUrl net s)).isProcessing = s.isProcessing
      ∧ (applyEffects s (predictEntities apiUrl net s)).predictedEntities = s.predictedEntities
      ∧ applyEffects s (predictEntities apiUrl net s) = s
      ∧ pressPredict apiUrl net s = [] := by
  have hnil := predictEntities_of_blank apiUrl net s h
  refine ⟨?_, ?_, ?_, ?_, ?_⟩
  · simp [hnil]
  · simp [hnil, applyEffects]
  · simp [hnil, applyEffects]
  · simp [hnil, applyEffects]
  · simp [pressPredict, hnil]

theorem predictEntities_blank_noop_witness :
    blank (whiteSpaceState true).inputText
      ∧ applyEffects (whiteSpaceState true)
          (predictEntities "http://localhost:7860" (fun _ => .error .networkError)
            (whiteSpaceState true)) = whiteSpaceState true :=
  ⟨by decide,
   (predictEntities_blank_noop "http://localhost:7860" (fun _ => .error .networkError)
      (whiteSpaceState true) (by decide)).2.2.2.1⟩

/-- C2: while `isProcessing` is true the predict action (a press of the predict
button) is a no-op whatever the input text is: it performs no effect, so no
request is issued and no state cell changes. -/
theorem pressPredict_processing_noop (apiUrl : String)
    (net : Request → Except JSError Response) (s : State) (h : s.isProcessing = true) :
    pressPredict apiUrl net s = []
      ∧ (∀ e ∈ pressPredict apiUrl net s, e.isFetch = false)
      ∧ applyEffects s (pressPredict apiUrl net s) = s := by
  have hnil : pressPredict apiUrl net s = [] := by
    simp [pressPredict, predictDisabled, h]
  simp [hnil, applyEffects]

theorem pressPredict_processing_noop_witness :
    (busyState "aspirin").isProcessing = true
      ∧ pressPredict "http://localhost:7860" (fun _ => .error .networkError)
          (busyState "aspirin") = [] :=
  ⟨rfl,
   (pressPredict_processing_noop "http://localhost:7860" (fun _ => .error .networkError)
      (busyState "aspirin") rfl).1⟩

/-- C3: with non-blank input and whatever the outcome of the request,
`predictEntities` first sets `isProcessing` to true, then issues the request,
and ends by setting `isProcessing` to false: the flag is true at every point
strictly inside the call and false in the state after the call has settled. -/
theorem predictEntities_isProcessing_released (apiUrl : String)
    (net : Request → Except JSError Response) (s : State) (h : ¬ blank s.inputText) :
    (∃ mid, predictEntities apiUrl net s =
        Effect.setIsProcessing true :: Effect.fetch (predictRequest apiUrl s.inputText)
          :: (mid ++ [Effect.setIsProcessing false]))
      ∧ (∀ k, 0 < k → k < (predictEntities apiUrl net s).length →
          (applyEffects s ((predictEntities apiUrl net s).take k)).isProcessing = true)
      ∧ (applyEffects s (predictEntities apiUrl net s)).isProcessing = false := by
  rw [predictEntities_of_not_blank apiUrl net s h]
  cases tryBlock (net (predictRequest apiUrl s.inputText)) with
  | error e =>
    refine ⟨⟨_, rfl⟩, ?_, rfl⟩
    intro k hk hlt
    simp only [List.cons_append, List.nil_append, List.length_cons, List.length_nil] at hlt
    interval_cases k <;> rfl
  | ok entities =>
    refine ⟨⟨_, rfl⟩, ?_, rfl⟩
    intro k hk hlt
    simp only [List.cons_append, List.nil_append, List.length_cons, List.length_nil] at hlt
    interval_cases k <;> rfl

theorem predictEntities_isProcessing_released_witness :
    ¬ blank (readyState "aspirin").inputText
      ∧ (applyEffects (readyState "aspirin")
          (predictEntities "http://localhost:7860" (fun _ => .error .networkError)
            (readyState "aspirin"))).isProcessing = false :=
  ⟨by decide,
   (predictEntities_isProcessing_released "http://localhost:7860"
      (fun _ => .error .networkError) (readyState "aspirin") (by decide)).2.2⟩

/-! ## Prediction client: outcomes -/

/-- C4: with non-blank input, a successful response whose `data[0]` is a list of
`[text, type]` pairs (possibly empty) raises no alert and replaces
`predictedEntities`, whatever it held, by the list of `{ text, type }` objects
of the pairs: same length, same order, the i-th entity built from the i-th
pair. -/
theorem predictEntities_success_maps_pairs (apiUrl : String)
    (net : Request → Except JSError Response) (s : State) (r : Response)
    (fields : List (String × JSON)) (pairs : List (JSON × JSON)) (rest : List JSON)
    (h : ¬ blank s.inputText)
    (hnet : net (predictRequest apiUrl s.inputText) = .ok r)
    (hok : r.ok = true) (hjson : r.json = .ok (.obj fields))
    (hdata : fields.lookup "data"
      = some (.arr (.arr (pairs.map (fun p => JSON.arr [p.1, p.2])) :: rest))) :
    (∀ e ∈ predictEntities apiUrl net s, e.isAlert = false)
      ∧ (applyEffects s (predictEntities apiUrl net s)).predictedEntities
          = pairs.map (fun p => ({ text := some p.1, type := some p.2 } : PredictedEntity))
      ∧ (applyEffects s (predictEntities apiUrl net s)).predictedEntities.length = pairs.length
      ∧ ∀ i (hi : i < pairs.length),
          (applyEffects s (predictEntities apiUrl net s)).predictedEntities[i]?
            = some { text := some pairs[i].1, type := some pairs[i].2 } := by
  have htry : tryBlock (net (predictRequest apiUrl s.inputText))
      = .ok (pairs.map (fun p => ({ text := some p.1, type := some p.2 } : PredictedEntity))) := by
    simp [hnet, tryBlock, hok, hjson, hasEntities, readData, hdata, truthy, readIndex0,
      mapEntities, mapArray_destructurePair_pairs]
  rw [predictEntities_of_not_blank apiUrl net s h, htry]
  refine ⟨?_, rfl, ?_, ?_⟩
  · simp [Effect.isAlert]
  · simp [applyEffects, applyEffect]
  · intro i hi
    simp [applyEffects, applyEffect, hi]

theorem predictEntities_success_maps_pairs_witness :
    ¬ blank (readyState "aspirin for diabetes").inputText
      ∧ (applyEffects (readyState "aspirin for diabetes")
          (predictEntities "http://localhost:7860" (fun _ => .ok (okResponse aspirinBody))
            (readyState "aspirin for diabetes"))).predictedEntities
        = [{ text := some (.str "aspirin"), type := some (.str "Chemical") },
           { text := some (.str "diabetes"), type := some (.str "Disease") }] :=
  ⟨by decide,
   (predictEntities_success_maps_pairs "http://localhost:7860"
      (fun _ => .ok (okResponse aspirinBody)) (readyState "aspirin for diabetes")
      (okResponse aspirinBody)
      [("data", .arr [.arr
        [.arr [.str "aspirin", .str "Chemical"], .arr [.str "diabetes", .str "Disease"]]])]
      [(.str "aspirin", .str "Chemical"), (.str "diabetes", .str "Disease")] []
      (by decide) rfl rfl rfl rfl).2.1⟩

/-- C5, as stated, fails: a successful response whose body is JSON `null` has
no `data` (no read of `data` from it succeeds), yet reading `result.data`
throws, so `alert` is called once. -/
theorem predictEntities_null_body_alerts :
    (∀ data, readData (some .null) = .ok data →
        data = none ∨ data = some .null ∨ readIndex0 data = .ok none)
      ∧ (predictEntities "http://localhost:7860" (fun _ => .ok (okResponse .null))
          (readyState "aspirin")).countP Effect.isAlert = 1
      ∧ (applyEffects (readyState "aspirin")
          (predictEntities "http://localhost:7860" (fun _ => .ok (okResponse .null))
            (readyState "aspirin"))).predictedEntities = [] := by
  have hb : ¬ blank (readyState "aspirin").inputText := by decide
  refine ⟨fun data h => (by cases h), ?_, ?_⟩ <;>
    rw [predictEntities_of_not_blank _ _ _ hb] <;> rfl

/-- C5, amended: a successful response whose body is not JSON `null` and in
which `data` is absent (or null), or `data[0]` is absent, raises no alert and
leaves `predictedEntities` empty, whatever the list held before. -/
theorem predictEntities_success_without_first_entry (apiUrl : String)
    (net : Request → Except JSError Response) (s : State) (r : Response) (result : JSON)
    (h : ¬ blank s.inputText)
    (hnet : net (predictRequest apiUrl s.inputText) = .ok r)
    (hok : r.ok = true) (hjson : r.json = .ok result)
    (hbody : result ≠ .null)
    (habsent : ∀ data, readData (some result) = .ok data →
      data = none ∨ data = some .null ∨ readIndex0 data = .ok none) :
    (∀ e ∈ predictEntities apiUrl net s, e.isAlert = false)
      ∧ (applyEffects s (predictEntities apiUrl net s)).predictedEntities = [] := by
  have hread : ∃ data, readData (some result) = .ok data := by
    cases result <;> first | exact ⟨_, rfl⟩ | exact absurd rfl hbody
  obtain ⟨data, h1⟩ := hread
  have htry : tryBlock (net (predictRequest apiUrl s.inputText)) = .ok [] := by
    rcases habsent data h1 with hd | hd | h2
    · subst hd
      simp [hnet, tryBlock, hok, hjson, hasEntities, h1, truthy]
    · subst hd
      simp [hnet, tryBlock, hok, hjson, hasEntities, h1, truthy]
    · by_cases ht : truthy data = true
      · simp [hnet, tryBlock, hok, hjson, hasEntities, h1, h2, ht, truthy]
      · simp [hnet, tryBlock, hok, hjson, hasEntities, h1, ht]
  rw [predictEntities_of_not_blank apiUrl net s h, htry]
  refine ⟨?_, rfl⟩
  simp [Effect.isAlert]

theorem predictEntities_success_without_first_entry_witness :
    ¬ blank (readyState "aspirin").inputText
      ∧ JSON.obj [("data", .arr [])] ≠ .null
      ∧ (applyEffects (readyState "aspirin")
          (predictEntities "http://localhost:7860"
            (fun _ => .ok (okResponse (.obj [("data", .arr [])])))
            (readyState "aspirin"))).predictedEntities = [] :=
  ⟨by decide, fun hnull => (by cases hnull),
   (predictEntities_success_without_first_entry "http://localhost:7860"
      (fun _ => .ok (okResponse (.obj [("data", .arr [])]))) (readyState "aspirin")
      (okResponse (.obj [("data", .arr [])])) (.obj [("data", .arr [])])
      (by decide) rfl rfl rfl (fun hnull => (by cases hnull))
      (fun data hd => by
        cases hd
        exact Or.inr (Or.inr rfl))).2⟩

/-- C6: with non-blank input, when the request is answered with a non-success
status or the network call fails, `alert` is called exactly once and
`predictedEntities` ends up empty, whatever the list held before. -/
theorem predictEntities_failure_alerts_once (apiUrl : String)
    (net : Request → Except JSError Response) (s : State)
    (h : ¬ blank s.inputText)
    (hfail : (∃ e, net (predictRequest apiUrl s.inputText) = .error e)
      ∨ ∃ r, net (predictRequest apiUrl s.inputText) = .ok r ∧ r.ok = false) :
    (predictEntities apiUrl net s).countP Effect.isAlert = 1
      ∧ (applyEffects s (predictEntities apiUrl net s)).predictedEntities = [] := by
  have htry : ∃ e, tryBlock (net (predictRequest apiUrl s.inputText)) = .error e := by
    rcases hfail with ⟨e, he⟩ | ⟨r, hr, hok⟩
    · exact ⟨e, by simp [he, tryBlock]⟩
    · exact ⟨.error "API request failed", by simp [hr, tryBlock, hok]⟩
  obtain ⟨e, he⟩ := htry
  rw [predictEntities_of_not_blank apiUrl net s h, he]
  exact ⟨by simp [List.countP_cons, Effect.isAlert], rfl⟩

theorem predictEntities_failure_alerts_once_witness :
    ¬ blank (readyState "aspirin").inputText
      ∧ (predictEntities "http://localhost:7860"
            (fun _ => .ok { ok := false, json := .ok (.obj []) })
            (readyState "aspirin")).countP Effect.isAlert = 1
      ∧ (applyEffects (readyState "aspirin")
          (predictEntities "http://localhost:7860"
            (fun _ => .ok { ok := false, json := .ok (.obj []) })
            (readyState "aspirin"))).predictedEntities = [] :=
  ⟨by decide,
   predictEntities_failure_alerts_once "http://localhost:7860" _
      (readyState "aspirin") (by decide) (Or.inr ⟨_, rfl, rfl⟩)⟩

/-- C7, as stated, fails: a successful response whose `data[0]` is a list of
strings, or a list of one-element lists, is mapped without any alert.  Array
destructuring takes the first two code points of a string, and leaves `type`
undefined for a one-element list. -/
theorem predictEntities_malformed_without_alert :
    ((predictEntities "http://localhost:7860"
          (fun _ => .ok (okResponse (.obj [("data", .arr [.arr [.str "ab", .str "cd"]])])))
          (readyState "aspirin")).countP Effect.isAlert = 0
      ∧ (applyEffects (readyState "aspirin")
          (predictEntities "http://localhost:7860"
            (fun _ => .ok (okResponse (.obj [("data", .arr [.arr [.str "ab", .str "cd"]])])))
            (readyState "aspirin"))).predictedEntities
        = [{ text := some (.str "a"), type := some (.str "b") },
           { text := some (.str "c"), type := some (.str "d") }])
      ∧ ((predictEntities "http://localhost:7860"
          (fun _ => .ok (okResponse (.obj [("data", .arr [.arr [.arr [.str "aspirin"]]])])))
          (readyState "aspirin")).countP Effect.isAlert = 0
      ∧ (applyEffects (readyState "aspirin")
          (predictEntities "http://localhost:7860"
            (fun _ => .ok (okResponse (.obj [("data", .arr [.arr [.arr [.str "aspirin"]]])])))
            (readyState "aspirin"))).predictedEntities
        = [{ text := some (.str "aspirin"), type := none }]) := by
  have hb : ¬ blank (readyState "aspirin").inputText := by decide
  refine ⟨⟨?_, ?_⟩, ⟨?_, ?_⟩⟩ <;>
    rw [predictEntities_of_not_blank _ _ _ hb] <;> rfl

/-- C7, amended: with non-blank input, a successful response whose `data` and
`data[0]` are truthy, and whose `data[0]` is either not an array or an array
with some element that is neither an array nor a string, makes
`predictEntities` call `alert` exactly once and set `predictedEntities` to the
empty list. -/
theorem predictEntities_unmappable_alerts (apiUrl : String)
    (net : Request → Except JSError Response) (s : State) (r : Response) (result : JSON)
    (data first : JSValue)
    (h : ¬ blank s.inputText)
    (hnet : net (predictRequest apiUrl s.inputText) = .ok r)
    (hok : r.ok = true) (hjson : r.json = .ok result)
    (hdata : readData (some result) = .ok data) (htd : truthy data = true)
    (hfirst : readIndex0 data = .ok first) (htf : truthy first = true)
    (hbad : (∀ xs, first ≠ some (.arr xs))
      ∨ ∃ xs x, first = some (.arr xs) ∧ x ∈ xs ∧ iterable x = false) :
    (predictEntities apiUrl net s).countP Effect.isAlert = 1
      ∧ (applyEffects s (predictEntities apiUrl net s)).predictedEntities = [] := by
  have hmap : ∃ e, mapEntities first = .error e := by
    rcases hbad with hna | ⟨xs, x, rfl, hx, hit⟩
    · exact ⟨_, mapEntities_error_of_not_array hna⟩
    · exact mapArray_error_of_not_iterable hx hit
  obtain ⟨e, he⟩ := hmap
  have htry : tryBlock (net (predictRequest apiUrl s.inputText)) = .error e := by
    simp [hnet, tryBlock, hok, hjson, hasEntities, hdata, htd, hfirst, htf, he]
  rw [predictEntities_of_not_blank apiUrl net s h, htry]
  exact ⟨by simp [List.countP_cons, Effect.isAlert], rfl⟩

theorem predictEntities_unmappable_alerts_witness :
    ¬ blank (readyState "aspirin").inputText
      ∧ (predictEntities "http://localhost:7860"
            (fun _ => .ok (okResponse (.obj [("data", .arr [.obj []])])))
            (readyState "aspirin")).countP Effect.isAlert = 1
      ∧ (applyEffects (readyState "aspirin")
          (predictEntities "http://localhost:7860"
            (fun _ => .ok (okResponse (.obj [("data", .arr [.obj []])])))
            (readyState "aspirin"))).predictedEntities = [] :=
  ⟨by decide,
   predictEntities_unmappable_alerts "http://localhost:7860"
      (fun _ => .ok (okResponse (.obj [("data", .arr [.obj []])]))) (readyState "aspirin")
      (okResponse (.obj [("data", .arr [.obj []])])) (.obj [("data", .arr [.obj []])])
      (some (.arr [.obj []])) (some (.obj []))
      (by decide) rfl rfl rfl rfl rfl rfl rfl
      (Or.inl (fun xs hx => by cases hx))⟩

/-- C8: with non-blank input `predictEntities` issues exactly one request,
whatever its outcome: a POST to `API_URL/api/predict` with the header
`Content-Type: application/json`, whose body encodes `{data: [inputText]}` with
`inputText` itself, untrimmed, as the only array element. -/
theorem predictEntities_single_request (apiUrl : String)
    (net : Request → Except JSError Response) (s : State) (h : ¬ blank s.inputText) :
    (predictEntities apiUrl net s).filter Effect.isFetch
      = [Effect.fetch
          { url := apiUrl ++ "/api/predict"
            method := "POST"
            headers := [("Content-Type", "application/json")]
            body := some (.obj [("data", .arr [.str s.inputText])]) }] := by
  rw [predictEntities_of_not_blank apiUrl net s h]
  cases tryBlock (net (predictRequest apiUrl s.inputText)) <;> rfl

theorem predictEntities_single_request_witness :
    ¬ blank (readyState " aspirin ").inputText
      ∧ (predictEntities "http://localhost:7860" (fun _ => .error .networkError)
          (readyState " aspirin ")).filter Effect.isFetch
        = [Effect.fetch
            { url := "http://localhost:7860/api/predict"
              method := "POST"
              headers := [("Content-Type", "application/json")]
              body := some (.obj [("data", .arr [.str " aspirin "])]) }] :=
  ⟨by decide,
   predictEntities_single_request "http://localhost:7860" (fun _ => .error .networkError)
      (readyState " aspirin ") (by decide)⟩

/-! ## Loading gate and metrics loader -/

/-- C9: whichever of the six tabs is active, while `loading` is true or
`metricsData` is unset the component renders exactly the loading placeholder,
with no tab bar and no panel, and selecting any tab in such a state does not
change what is rendered. -/
theorem render_loading_gate (apiUrl : String) (charts : Charts) (s : State)
    (h : s.loading = true ∨ s.metricsData = .null) :
    render charts s = .loadingPlaceholder
      ∧ ∀ tab ∈ tabs,
          (step apiUrl s (.selectTab tab)).activeTab = tab
            ∧ render charts (step apiUrl s (.selectTab tab)) = .loadingPlaceholder
            ∧ render charts (step apiUrl s (.selectTab tab)) = render charts s := by
  have hs : render charts s = .loadingPlaceholder := by
    rcases h with h | h
    · simp [render, h]
    · exact render_of_metricsData_null charts s h
  refine ⟨hs, ?_⟩
  intro tab _
  have ht : render charts (step apiUrl s (.selectTab tab)) = .loadingPlaceholder := by
    rcases h with h | h
    · simp [render, step, handle, applyEffects, applyEffect, h]
    · simp [render, step, handle, applyEffects, applyEffect, h, truthy]
  exact ⟨rfl, ht, by rw [ht, hs]⟩

theorem render_loading_gate_witness :
    (initialState.loading = true ∨ initialState.metricsData = .null)
      ∧ render chartsRender initialState = .loadingPlaceholder
      ∧ render chartsRender (step "http://localhost:7860" initialState (.selectTab "predict"))
          = render chartsRender initialState :=
  ⟨Or.inl rfl,
   (render_loading_gate "http://localhost:7860" chartsRender initialState (Or.inl rfl)).1,
   ((render_loading_gate "http://localhost:7860" chartsRender initialState (Or.inl rfl)).2
      "predict" (by decide)).2.2⟩

/-- C10: when the startup metrics request fails (the fetch rejects, or the body
does not parse as JSON) the loader sets `loading` to false and leaves
`metricsData` unset; no later event sets `metricsData`, so every state reached
afterwards still renders the loading placeholder. -/
theorem loadMetrics_failure_never_usable (apiUrl : String) (charts : Charts)
    (net : Request → Except JSError Response) (before : List Event)
    (hfail : (∃ e, net (metricsRequest apiUrl) = .error e)
      ∨ ∃ r e, net (metricsRequest apiUrl) = .ok r ∧ r.json = .error e) :
    (afterLoad apiUrl net before).loading = false
      ∧ (afterLoad apiUrl net before).metricsData = .null
      ∧ ∀ after : List Event,
          (run apiUrl (afterLoad apiUrl net before) after).metricsData = .null
            ∧ render charts (run apiUrl (afterLoad apiUrl net before) after)
                = .loadingPlaceholder := by
  have hload : ∃ e, loadMetrics apiUrl net
      = [Effect.fetch (metricsRequest apiUrl),
         Effect.consoleError "Failed to load metrics:" e, Effect.setLoading false] := by
    rcases hfail with ⟨e, he⟩ | ⟨r, e, hr, he⟩
    · exact ⟨e, by simp [loadMetrics, he]⟩
    · exact ⟨e, by simp [loadMetrics, hr, he]⟩
  obtain ⟨e, he⟩ := hload
  have hbefore : (run apiUrl initialState before).metricsData = .null :=
    run_metricsData apiUrl initialState before
  have hmd : (afterLoad apiUrl net before).metricsData = .null := by
    unfold afterLoad
    rw [he]
    exact hbefore
  refine ⟨?_, hmd, ?_⟩
  · unfold afterLoad
    rw [he]
    rfl
  · intro after
    have hrun : (run apiUrl (afterLoad apiUrl net before) after).metricsData = .null := by
      rw [run_metricsData, hmd]
    exact ⟨hrun, render_of_metricsData_null charts _ hrun⟩

theorem loadMetrics_failure_never_usable_witness :
    (afterLoad "http://localhost:7860" (fun _ => .error .networkError) []).loading = false
      ∧ render chartsRender (run "http://localhost:7860"
          (afterLoad "http://localhost:7860" (fun _ => .error .networkError) [])
          [.selectTab "predict", .editInput "aspirin",
           .predict (fun _ => .ok (okResponse aspirinBody))]) = .loadingPlaceholder :=
  ⟨(loadMetrics_failure_never_usable "http://localhost:7860" chartsRender
      (fun _ => .error .networkError) [] (Or.inl ⟨.networkError, rfl⟩)).1,
   ((loadMetrics_failure_never_usable "http://localhost:7860" chartsRender
      (fun _ => .error .networkError) [] (Or.inl ⟨.networkError, rfl⟩)).2.2
      [.selectTab "predict", .editInput "aspirin",
       .predict (fun _ => .ok (okResponse aspirinBody))]).2⟩

/-- C11, as stated, fails: the loader stores any body that parses, whatever its
shape.  An empty object ends the loading placeholder and makes the render
throw; a body that only lacks `training_progress` brings up the dashboard
(shown with a chart library that renders its charts). -/
theorem loadMetrics_accepts_unshaped_body :
    (snapshotShaped (.obj []) = false
      ∧ (afterLoad "http://localhost:7860" (fun _ => .ok (okResponse (.obj []))) []).metricsData
          = .obj []
      ∧ ∀ charts : Charts,
          render charts
              (afterLoad "http://localhost:7860" (fun _ => .ok (okResponse (.obj []))) [])
            = .crashed .typeError)
      ∧ (snapshotShaped snapshotWithoutTraining = false
        ∧ (afterLoad "http://localhost:7860"
            (fun _ => .ok (okResponse snapshotWithoutTraining)) []).metricsData
            = snapshotWithoutTraining
        ∧ render chartsRender (afterLoad "http://localhost:7860"
            (fun _ => .ok (okResponse snapshotWithoutTraining)) [])
            = .dashboard
                [("overview", true), ("analysis", false), ("training", false),
                 ("comparison", false), ("details", false), ("predict", false)]
                ["overview"]) :=
  ⟨⟨rfl, rfl, fun _ => rfl⟩, ⟨rfl, rfl, rfl⟩⟩

/-- C11, amended: when the metrics request is answered with success status and
a body that parses as JSON, the loader stores that body in `metricsData`
whatever its shape and sets `loading` to false; the component then shows the
loading placeholder exactly when the stored body is falsy. -/
theorem loadMetrics_stores_parsed_body (apiUrl : String) (charts : Charts)
    (net : Request → Except JSError Response) (before : List Event) (r : Response)
    (body : JSON) (hnet : net (metricsRequest apiUrl) = .ok r) (_hok : r.ok = true)
    (hjson : r.json = .ok body) :
    (afterLoad apiUrl net before).metricsData = body
      ∧ (afterLoad apiUrl net before).loading = false
      ∧ (render charts (afterLoad apiUrl net before) = .loadingPlaceholder
          ↔ truthy (some body) = false) := by
  have hm : (afterLoad apiUrl net before).metricsData = body := by
    unfold afterLoad
    rw [loadMetrics_of_body apiUrl net r body hnet hjson]
    rfl
  have hl : (afterLoad apiUrl net before).loading = false := by
    unfold afterLoad
    rw [loadMetrics_of_body apiUrl net r body hnet hjson]
    rfl
  refine ⟨hm, hl, ?_⟩
  constructor
  · intro hr
    cases ht : truthy (some body)
    · rfl
    · exact absurd hr (render_ne_placeholder_of_truthy charts _ hl (by rw [hm]; exact ht))
  · intro ht
    simp [render, hm, ht]

theorem loadMetrics_stores_parsed_body_witness :
    (okResponse (.obj [])).ok = true
      ∧ (afterLoad "http://localhost:7860" (fun _ => .ok (okResponse (.obj []))) []).metricsData
          = .obj []
      ∧ (afterLoad "http://localhost:7860" (fun _ => .ok (okResponse (.obj []))) []).loading
          = false
      ∧ (render chartsRender
              (afterLoad "http://localhost:7860" (fun _ => .ok (okResponse (.obj []))) [])
            = .loadingPlaceholder
          ↔ truthy (some (.obj [])) = false) :=
  ⟨rfl,
   loadMetrics_stores_parsed_body "http://localhost:7860" chartsRender
    (fun _ => .ok (okResponse (.obj []))) [] (okResponse (.obj [])) (.obj []) rfl rfl rfl⟩

/-! ## Tab selector -/

/-- C13, as stated, fails: with a valid MetricsSnapshot loaded and the predict
tab active, a prediction whose first entity has an object for its text makes
the render throw, so no panel is shown, whatever the chart library does. -/
theorem render_throws_on_object_entity :
    snapshotValid sampleSnapshot = true
      ∧ (sessionState "http://localhost:7860" (fun _ => .ok (okResponse sampleSnapshot)) []
          objectEntitySession).loading = false
      ∧ (sessionState "http://localhost:7860" (fun _ => .ok (okResponse sampleSnapshot)) []
          objectEntitySession).metricsData = sampleSnapshot
      ∧ (sessionState "http://localhost:7860" (fun _ => .ok (okResponse sampleSnapshot)) []
          objectEntitySession).activeTab = "predict"
      ∧ (sessionState "http://localhost:7860" (fun _ => .ok (okResponse sampleSnapshot)) []
          objectEntitySession).predictedEntities
          = [{ text := some (.obj [("name", .str "aspirin")]), type := some (.str "Chemical") }]
      ∧ ∀ charts : Charts,
          render charts
              (sessionState "http://localhost:7860"
                (fun _ => .ok (okResponse sampleSnapshot)) [] objectEntitySession)
            = .crashed .invalidChild :=
  ⟨rfl, rfl, rfl, rfl, rfl, fun _ => rfl⟩

/-- C13, amended: the tab bar offers exactly six distinct identifiers, the
first of which is the initial `activeTab`; in every state reached by selecting
tabs of the bar (mixed with any other events, before or after the loader
settles) `activeTab` is one of the six; once a truthy body is loaded the
render either throws or shows the dashboard with exactly one panel, the one of
`activeTab`; and it does show that one panel when the body is a valid
MetricsSnapshot, the predicted entities have strings for `type` and `text`,
and the chart library renders the charts of the active panel. -/
theorem tab_selector_state_machine (apiUrl : String) (charts : Charts)
    (net : Request → Except JSError Response) (before after : List Event)
    (hbefore : ∀ t, Event.selectTab t ∈ before → t ∈ tabs)
    (hafter : ∀ t, Event.selectTab t ∈ after → t ∈ tabs) :
    tabs = ["overview", "analysis", "training", "comparison", "details", "predict"]
      ∧ tabs.Nodup
      ∧ tabs.head? = some initialState.activeTab
      ∧ (run apiUrl initialState before).activeTab ∈ tabs
      ∧ (sessionState apiUrl net before after).activeTab ∈ tabs
      ∧ ∀ r body, net (metricsRequest apiUrl) = .ok r → r.json = .ok body →
          (truthy (some body) = true →
            render charts (sessionState apiUrl net before after)
                = .dashboard
                    (tabs.map (fun tab =>
                      (tab, (sessionState apiUrl net before after).activeTab == tab)))
                    [(sessionState apiUrl net before after).activeTab]
              ∨ ∃ e, render charts (sessionState apiUrl net before after) = .crashed e)
          ∧ (snapshotValid body = true →
              (∀ entity ∈ (sessionState apiUrl net before after).predictedEntities,
                isText entity.type = true ∧ isText entity.text = true) →
              (∀ d, charts (sessionState apiUrl net before after).activeTab d = .ok ()) →
              render charts (sessionState apiUrl net before after)
                = .dashboard
                    (tabs.map (fun tab =>
                      (tab, (sessionState apiUrl net before after).activeTab == tab)))
                    [(sessionState apiUrl net before after).activeTab]) := by
  have h0 : initialState.activeTab ∈ tabs := by decide
  have h1 : (run apiUrl initialState before).activeTab ∈ tabs :=
    run_activeTab_mem apiUrl initialState before h0 hbefore
  have h2 : (afterLoad apiUrl net before).activeTab ∈ tabs := by
    unfold afterLoad
    rw [loadMetrics_keeps_activeTab]
    exact h1
  have h3 : (sessionState apiUrl net before after).activeTab ∈ tabs :=
    run_activeTab_mem apiUrl _ after h2 hafter
  refine ⟨rfl, by decide, rfl, h1, h3, ?_⟩
  intro r body hnet hjson
  have hm : (sessionState apiUrl net before after).metricsData = body := by
    unfold sessionState
    rw [run_metricsData]
    unfold afterLoad
    rw [loadMetrics_of_body apiUrl net r body hnet hjson]
    rfl
  have hl : (sessionState apiUrl net before after).loading = false := by
    unfold sessionState
    rw [run_loading]
    unfold afterLoad
    rw [loadMetrics_of_body apiUrl net r body hnet hjson]
    rfl
  constructor
  · intro htruthy
    have hd := render_dashboard_or_crashed charts _ hl (by rw [hm]; exact htruthy)
    rw [filter_tabs_of_mem h3] at hd
    exact hd
  · intro hvalid hentities hcharts
    exact render_of_snapshotValid charts _ hl (by rw [hm]; exact hvalid) h3 hentities hcharts

theorem tab_selector_state_machine_witness :
    (∀ t, Event.selectTab t ∈ sampleSession → t ∈ tabs)
      ∧ snapshotValid sampleSnapshot = true
      ∧ (sessionState "http://localhost:7860" (fun _ => .ok (okResponse sampleSnapshot)) []
          sampleSession).predictedEntities
          = [{ text := some (.str "aspirin"), type := some (.str "Chemical") },
             { text := some (.str "diabetes"), type := some (.str "Disease") }]
      ∧ render chartsRender
          (sessionState "http://localhost:7860" (fun _ => .ok (okResponse sampleSnapshot)) []
            sampleSession)
        = .dashboard
            [("overview", false), ("analysis", false), ("training", false),
             ("comparison", false), ("details", false), ("predict", true)]
            ["predict"] :=
  have hsession : ∀ t, Event.selectTab t ∈ sampleSession → t ∈ tabs := by
    intro t ht
    simp only [sampleSession, List.mem_cons, Event.selectTab.injEq, List.mem_singleton,
      List.not_mem_nil, or_false] at ht
    rcases ht with rfl | rfl | h | h
    · decide
    · decide
    · cases h
    · cases h
  have hentities : ∀ entity ∈ (sessionState "http://localhost:7860"
      (fun _ => .ok (okResponse sampleSnapshot)) [] sampleSession).predictedEntities,
      isText entity.type = true ∧ isText entity.text = true := by
    intro entity he
    have hlist : (sessionState "http://localhost:7860"
        (fun _ => .ok (okResponse sampleSnapshot)) [] sampleSession).predictedEntities
        = [{ text := some (.str "aspirin"), type := some (.str "Chemical") },
           { text := some (.str "diabetes"), type := some (.str "Disease") }] := rfl
    rw [hlist] at he
    simp only [List.mem_cons, List.mem_singleton, List.not_mem_nil, or_false] at he
    rcases he with rfl | rfl <;> exact ⟨rfl, rfl⟩
  ⟨hsession, rfl, rfl,
   ((tab_selector_state_machine "http://localhost:7860" chartsRender
      (fun _ => .ok (okResponse sampleSnapshot)) [] sampleSession
      (fun _ h => absurd h (List.not_mem_nil _)) hsession).2.2.2.2.2
      (okResponse sampleSnapshot) sampleSnapshot rfl rfl).2 rfl hentities (fun _ => rfl)⟩

/-- C14: selecting a tab `t` in any state sets `activeTab` to `t`, leaves
`inputText`, `predictedEntities`, `isProcessing`, `loading` and `metricsData`
as they were and issues no request; the derived data (`comparisonData`,
`chartMetricsData`, `radarData` and the other locals of lines 40-67) is
unchanged by the selection, and is the same in any two states that agree on
`metricsData`. -/
theorem selectTab_is_pure (apiUrl : String) (s : State) (t : String) :
    t ∈ tabs →
    (step apiUrl s (.selectTab t)).activeTab = t
      ∧ (step apiUrl s (.selectTab t)).inputText = s.inputText
      ∧ (step apiUrl s (.selectTab t)).predictedEntities = s.predictedEntities
      ∧ (step apiUrl s (.selectTab t)).isProcessing = s.isProcessing
      ∧ (step apiUrl s (.selectTab t)).loading = s.loading
      ∧ (step apiUrl s (.selectTab t)).metricsData = s.metricsData
      ∧ (∀ e ∈ handle apiUrl s (.selectTab t), e.isFetch = false)
      ∧ deriveMetrics (step apiUrl s (.selectTab t)) = deriveMetrics s
      ∧ ∀ s1 s2 : State, s1.metricsData = s2.metricsData →
          deriveMetrics s1 = deriveMetrics s2 := by
  intro _
  have hpure : ∀ s1 s2 : State, s1.metricsData = s2.metricsData →
      deriveMetrics s1 = deriveMetrics s2 := by
    intro s1 s2 h
    simp only [deriveMetrics, h]
  refine ⟨rfl, rfl, rfl, rfl, rfl, rfl, ?_, hpure _ _ rfl, hpure⟩
  simp [handle, Effect.isFetch]

theorem selectTab_is_pure_witness :
    "comparison" ∈ tabs
      ∧ (step "http://localhost:7860" (busyState "aspirin") (.selectTab "comparison")).activeTab
          = "comparison"
      ∧ (step "http://localhost:7860" (busyState "aspirin")
          (.selectTab "comparison")).isProcessing = true
      ∧ deriveMetrics (step "http://localhost:7860" (busyState "aspirin")
          (.selectTab "comparison")) = deriveMetrics (busyState "aspirin") :=
  ⟨by decide,
   (selectTab_is_pure "http://localhost:7860" (busyState "aspirin") "comparison"
      (by decide)).1,
   (selectTab_is_pure "http://localhost:7860" (busyState "aspirin") "comparison"
      (by decide)).2.2.2.1,
   (selectTab_is_pure "http://localhost:7860" (busyState "aspirin") "comparison"
      (by decide)).2.2.2.2.2.2.2.1⟩

/-! ## Displayed percentages -/

theorem toFixedFinite_of_nonneg (x : ℚ) (digits : ℕ) (h0 : 0 ≤ x) (h : x ≤ 101) :
    toFixedFinite x digits = some (formatFixed (fixedUnits x digits) digits) := by
  unfold toFixedFinite
  rw [abs_of_nonneg h0, if_neg, if_neg (not_lt.mpr h0)]
  rw [not_le]
  calc x ≤ 101 := h
    _ < 10 ^ (21 : ℕ) := by norm_num

theorem percentText_of_fraction (digits : ℕ) (x y : ℚ)
    (hy : roundToDouble (x * 100) = .finite y) (h0 : 0 ≤ y) (h : y ≤ 101) :
    percentText digits (some (.num (.finite x)))
      = .ok (some (formatFixed (fixedUnits y digits) digits)) := by
  simp only [percentText, timesHundred, hy, Product.toFixed,
    toFixedFinite_of_nonneg y digits h0 h]

/-- C12, as stated, fails: for the chemical F1 `fractionA` (the double nearest
to 0.9505) the Entity Performance bar shows `95.0` although `95.1` is nearer
to the fraction times 100, and for the overall F1 `fractionB` (the double
nearest to 0.90095) the header badge shows `90.09` although `90.10` is
nearer.  The double product falls below the rounding boundary that the exact
product exceeds. -/
theorem displayed_percentage_differs_from_exact_rounding :
    (0 ≤ fractionA ∧ fractionA ≤ 1
      ∧ roundToDouble (9505 / 10000) = .finite fractionA
      ∧ roundToDouble fractionA = .finite fractionA
      ∧ siteText roundingSnapshot ⟨"chemical", "f1_score", 1⟩ = .ok (some "95.0")
      ∧ |fractionA * 100 - 951 / 10| < |fractionA * 100 - 950 / 10|)
      ∧ (0 ≤ fractionB ∧ fractionB ≤ 1
        ∧ roundToDouble (90095 / 100000) = .finite fractionB
        ∧ roundToDouble fractionB = .finite fractionB
        ∧ siteText roundingSnapshot ⟨"overall", "f1_score", 2⟩ = .ok (some "90.09")
        ∧ |fractionB * 100 - 9010 / 100| < |fractionB * 100 - 9009 / 100|) := by
  have hA1 : roundToDouble (9505 / 10000) = .finite fractionA := by
    rw [roundToDouble_of_bounds (9505 / 10000) (-1) 8561342891631313
      (by norm_num) (by norm_num) (by norm_num) (by norm_num)
      (by rw [abs_lt]; constructor <;> norm_num) (by norm_num)]
    norm_num [fractionA]
  have hA2 : roundToDouble fractionA = .finite fractionA := by
    rw [roundToDouble_of_bounds fractionA (-1) 8561342891631313
      (by norm_num [fractionA]) (by norm_num) (by norm_num [fractionA])
      (by norm_num [fractionA])
      (by rw [abs_lt]; constructor <;> norm_num [fractionA]) (by norm_num)]
    norm_num [fractionA]
  have hA3 : roundToDouble (fractionA * 100) = .finite (6688549134086963 / 2 ^ 46) := by
    rw [roundToDouble_of_bounds (fractionA * 100) 6 6688549134086963
      (by norm_num [fractionA]) (by norm_num) (by norm_num [fractionA])
      (by norm_num [fractionA])
      (by rw [abs_lt]; constructor <;> norm_num [fractionA]) (by norm_num)]
    norm_num
  have hA4 : fixedUnits (6688549134086963 / 2 ^ 46) 1 = 950 := by
    unfold fixedUnits
    rw [Nat.floor_eq_iff (by norm_num)]
    constructor <;> norm_num
  have hB1 : roundToDouble (90095 / 100000) = .finite fractionB := by
    rw [roundToDouble_of_bounds (90095 / 100000) (-1) 8115036168558897
      (by norm_num) (by norm_num) (by norm_num) (by norm_num)
      (by rw [abs_lt]; constructor <;> norm_num) (by norm_num)]
    norm_num [fractionB]
  have hB2 : roundToDouble fractionB = .finite fractionB := by
    rw [roundToDouble_of_bounds fractionB (-1) 8115036168558897
      (by norm_num [fractionB]) (by norm_num) (by norm_num [fractionB])
      (by norm_num [fractionB])
      (by rw [abs_lt]; constructor <;> norm_num [fractionB]) (by norm_num)]
    norm_num [fractionB]
  have hB3 : roundToDouble (fractionB * 100) = .finite (3169936003343319 / 2 ^ 45) := by
    rw [roundToDouble_of_bounds (fractionB * 100) 6 6339872006686638
      (by norm_num [fractionB]) (by norm_num) (by norm_num [fractionB])
      (by norm_num [fractionB])
      (by rw [abs_lt]; constructor <;> norm_num [fractionB]) (by norm_num)]
    norm_num
  have hB4 : fixedUnits (3169936003343319 / 2 ^ 45) 2 = 9009 := by
    unfold fixedUnits
    rw [Nat.floor_eq_iff (by norm_num)]
    constructor <;> norm_num
  have hfmtA : formatFixed 950 1 = "95.0" := by decide
  have hfmtB : formatFixed 9009 2 = "90.09" := by decide
  refine ⟨⟨by norm_num [fractionA], by norm_num [fractionA], hA1, hA2, ?_, ?_⟩,
    ⟨by norm_num [fractionB], by norm_num [fractionB], hB1, hB2, ?_, ?_⟩⟩
  · have hsite : siteText roundingSnapshot ⟨"chemical", "f1_score", 1⟩
        = percentText 1 (some (.num (.finite fractionA))) := rfl
    rw [hsite, percentText_of_fraction 1 fractionA _ hA3 (by norm_num) (by norm_num), hA4,
      hfmtA]
  · rw [abs_of_neg (by norm_num [fractionA]), abs_of_pos (by norm_num [fractionA])]
    norm_num [fractionA]
  · have hsite : siteText roundingSnapshot ⟨"overall", "f1_score", 2⟩
        = percentText 2 (some (.num (.finite fractionB))) := rfl
    rw [hsite, percentText_of_fraction 2 fractionB _ hB3 (by norm_num) (by norm_num), hB4,
      hfmtB]
  · rw [abs_of_neg (by norm_num [fractionB]), abs_of_pos (by norm_num [fractionB])]
    norm_num [fractionB]

/-- C12, amended: for loaded metrics whose fraction at a site is a number `x`
in [0,1], the text shown at the site is `toFixed` (1 digit for the two Entity
Performance bars, 2 digits elsewhere) of the double product of `x` and 100:
the numeral with that many decimals nearest to the double `y` nearest to
`100 x`, a tie going up.  It lies within half a unit of the last shown digit
plus `2 ^ -47` of `100 x`. -/
theorem displayed_percentage_is_rounded_double_product (m : JSON) (site : PercentSite)
    (record : JSValue) (x : ℚ) (hsite : site ∈ percentSites)
    (hrecord : readProp site.record (some m) = .ok record)
    (hfield : readProp site.field record = .ok (some (.num (.finite x))))
    (h0 : 0 ≤ x) (h1 : x ≤ 1) :
    (site.digits = 2 ∨ (site.digits = 1 ∧ site.field = "f1_score"))
      ∧ ∃ y, roundToDouble (x * 100) = .finite y
        ∧ |y - x * 100| ≤ 1 / 2 ^ 47
        ∧ siteText m site
            = .ok (some (formatFixed (fixedUnits y site.digits) site.digits))
        ∧ |(fixedUnits y site.digits : ℚ) / 10 ^ site.digits - x * 100|
            ≤ 1 / (2 * 10 ^ site.digits) + 1 / 2 ^ 47 := by
  constructor
  · simp only [percentSites, List.mem_cons, List.mem_singleton, List.not_mem_nil,
      or_false] at hsite
    rcases hsite with rfl | rfl | rfl | rfl | rfl | rfl | rfl | rfl | rfl | rfl | rfl | rfl <;>
      simp
  · obtain ⟨y, hy, hy0, hy101, hnear⟩ :=
      roundToDouble_near (x * 100) (by positivity) (by linarith)
    refine ⟨y, hy, hnear, ?_, ?_⟩
    · simp only [siteText, hrecord, fieldPercent, hfield]
      exact percentText_of_fraction site.digits x y hy hy0 hy101
    · have hunits := fixedUnits_near y site.digits hy0
      have htri : |(fixedUnits y site.digits : ℚ) / 10 ^ site.digits - x * 100|
          ≤ |(fixedUnits y site.digits : ℚ) / 10 ^ site.digits - y| + |y - x * 100| := by
        have := abs_add ((fixedUnits y site.digits : ℚ) / 10 ^ site.digits - y) (y - x * 100)
        simpa using this
      linarith

theorem displayed_percentage_is_rounded_double_product_witness :
    (⟨"overall", "precision", 2⟩ : PercentSite) ∈ percentSites
      ∧ (0 : ℚ) ≤ 7 / 8 ∧ (7 / 8 : ℚ) ≤ 1
      ∧ ∃ y, roundToDouble (7 / 8 * 100) = .finite y
        ∧ |y - 7 / 8 * 100| ≤ 1 / 2 ^ 47
        ∧ siteText sampleSnapshot ⟨"overall", "precision", 2⟩
            = .ok (some (formatFixed (fixedUnits y 2) 2))
        ∧ |(fixedUnits y 2 : ℚ) / 10 ^ 2 - 7 / 8 * 100| ≤ 1 / (2 * 10 ^ 2) + 1 / 2 ^ 47 :=
  ⟨by decide, by norm_num, by norm_num,
   (displayed_percentage_is_rounded_double_product sampleSnapshot
      ⟨"overall", "precision", 2⟩ (some (sampleScores (7/8) (3/4) (13/16))) (7 / 8)
      (by decide) rfl rfl (by norm_num) (by norm_num)).2⟩

end NERDashboard
